import Mathlib

/-!
# Verification of the authentication-session core

A shallow embedding of the authentication/session subsystem of the
Async-Image-Task-with-Credit-Billing backend:

* `app/utils/auth.py` — password-independent token primitives, the JWT
  codec (`create_access_token`, `verify_token`, `is_token_blacklisted`);
* `app/utils/cookie_security.py` — `SecureCookieManager.sign_cookie_data`
  and `verify_cookie_data`;
* `app/services/token_service.py` — `TokenService.create_token_pair`,
  `refresh_access_token`, `revoke_token_family`, `terminate_session`,
  `get_active_user_sessions`, `log_security_event`;
* `app/services/cleanup_service.py` — `CleanupService.cleanup_expired_tokens`.

Modelling conventions:

* Timestamps (`datetime.utcnow()`) are natural numbers counting seconds;
  `timedelta(days=d)` is `d * 86400`, `timedelta(minutes=m)` is `m * 60`.
* SHA-256 (`hashlib.sha256(...).hexdigest()`) is modelled as the injective
  tagging function `sha256` (idealised collision resistance).  HMAC-SHA256
  is modelled likewise.
* The random generators (`secrets.token_urlsafe(32)`, `uuid.uuid4()`) are
  modelled as draws from the injective stream `fresh_token` indexed by a
  counter `DB.rng` carried in the state: a fresh draw never repeats.
* SQLAlchemy tables are Lean lists of records; `query(...).first()` is
  `List.find?` over the list, `query(...).all()`/`.filter`/`.count` are
  `List.filter`/`List.length`, mutation of the object returned by
  `.first()` is `updateFirst` (update of the first matching element), and
  `.delete()`/bulk `.update()` are `List.filter`/`List.map`.  Column
  server defaults (`created_at`, `last_used_at`, `last_activity_at`) are
  filled with the current time at insertion.
* Python truthiness of optional strings (`if device_fingerprint and ...`,
  `if jti and ...`) is modelled explicitly: `none` and `some ""` are falsy.
-/

/-! ## Crypto primitives (`app/utils/auth.py`) -/

/-- `hashlib.sha256(s.encode()).hexdigest()`, modelled as an injective
tagging function (idealised collision resistance of SHA-256). -/
def sha256 (s : String) : String := "sha256:" ++ s

theorem sha256_injective : Function.Injective sha256 := by
  intro a b h
  have hdata : ("sha256:" ++ a).data = ("sha256:" ++ b).data := congrArg String.data h
  rw [String.data_append, String.data_append] at hdata
  exact String.ext (List.append_cancel_left hdata)

/-- `hash_token` (auth.py line 61): SHA-256 of the opaque token, used for
at-rest storage and lookup. -/
def hash_token (token : String) : String := sha256 token

theorem hash_token_injective : Function.Injective hash_token :=
  fun _ _ h => sha256_injective h

/-- `create_device_fingerprint` (auth.py line 139): SHA-256 of
`f"{user_agent}:{ip_address}"`. -/
def create_device_fingerprint (user_agent ip_address : String) : String :=
  sha256 (user_agent ++ ":" ++ ip_address)

/-- The deterministic injective stream modelling the outputs of
`secrets.token_urlsafe(32)` and `uuid.uuid4()`: draw `n` of the process
lifetime.  Distinct draws are distinct strings. -/
def fresh_token (n : Nat) : String := String.mk (List.replicate (n + 1) 'r')

theorem fresh_token_injective : Function.Injective fresh_token := by
  intro a b h
  have hdata := congrArg (fun s => s.data.length) h
  simp only [fresh_token, String.length_mk, List.length_replicate] at hdata
  omega

/-- `settings.JWT_SECRET`: the server-held signing secret, modelled as an
opaque constant string. -/
def jwtSecret : String := "JWT_SECRET"

/-- `settings.ACCESS_TOKEN_EXPIRE_MINUTES` (config.py line 15). -/
def ACCESS_TOKEN_EXPIRE_MINUTES : Nat := 15

/-! ## Token codec (`app/utils/auth.py`) -/

/-- The claim set of an access JWT as built by `create_access_token`:
`sub`, `user_id`, `is_admin` from the caller plus `exp`, `iat`, `jti`,
`token_type`.  A presented (possibly foreign) token may lack a `jti`,
hence `Option`. -/
structure JWTPayload where
  sub : String
  user_id : Nat
  is_admin : Bool
  exp : Nat
  iat : Nat
  jti : Option String
  token_type : String
deriving Repr, DecidableEq

/-- A presented bearer string: either garbage that `jwt.decode` rejects as
malformed, or a structurally valid JWT carrying its payload and the key it
was signed with. -/
inductive JWT where
  | malformed : String → JWT
  | signed : JWTPayload → String → JWT
deriving Repr, DecidableEq

/-- `create_access_token` (auth.py line 27) at the call sites in
`token_service.py`: no `expires_delta`, no caller-supplied `jti`, so the
expiry is `now + ACCESS_TOKEN_EXPIRE_MINUTES` and the `jti` is a fresh
UUID supplied by the caller of this model. -/
def create_access_token (sub : String) (user_id : Nat) (is_admin : Bool)
    (jti : String) (now : Nat) : JWT :=
  JWT.signed
    { sub := sub
      user_id := user_id
      is_admin := is_admin
      exp := now + ACCESS_TOKEN_EXPIRE_MINUTES * 60
      iat := now
      jti := some jti
      token_type := "access" }
    jwtSecret

/-- `jwt.decode(token, settings.JWT_SECRET, ...)`: fails on malformed
input, on a signature made with a different key, and on an expired `exp`
claim (python-jose rejects when `exp < now`). -/
def jwt_decode (token : JWT) (now : Nat) : Option JWTPayload :=
  match token with
  | .malformed _ => none
  | .signed payload key =>
    if key = jwtSecret then
      if payload.exp < now then none else some payload
    else none

/-! ## Records and the store -/

/-- `users` table (`app/models/user.py`), restricted to the columns the
authentication core reads or writes. -/
structure UserRec where
  id : Nat
  email : String
  is_admin : Bool
  is_active : Bool
  max_concurrent_sessions : Option Nat
  failed_login_attempts : Nat
  last_login_at : Option Nat
  last_login_ip : Option String
deriving Repr, DecidableEq

/-- `refresh_tokens` table (`app/models/token.py` line 29). -/
structure RefreshTokenRec where
  id : Nat
  token_hash : String
  user_id : Nat
  device_fingerprint : String
  family_id : String
  ip_address : String
  user_agent : String
  device_type : String
  location : Option String
  is_active : Bool
  created_at : Nat
  last_used_at : Nat
  expires_at : Nat
deriving Repr, DecidableEq

/-- `user_sessions` table (`app/models/token.py` line 62). -/
structure UserSessionRec where
  session_id : String
  user_id : Nat
  refresh_token_id : Option Nat
  ip_address : String
  user_agent : String
  device_type : String
  device_fingerprint : String
  location : Option String
  is_active : Bool
  is_remember_me : Bool
  created_at : Nat
  last_activity_at : Nat
  expires_at : Nat
  terminated_at : Option Nat
  termination_reason : Option String
deriving Repr, DecidableEq

/-- `security_logs` table (`app/models/token.py` line 99).  The JSON
`details` blob is modelled as a key/value list; the server-default
`created_at` column is omitted (no claim reads it). -/
structure SecurityLogRec where
  user_id : Option Nat
  session_id : Option String
  event_type : String
  event_category : String
  severity : String
  ip_address : Option String
  user_agent : Option String
  device_fingerprint : Option String
  location : Option String
  details : Option (List (String × String))
  success : Bool
  error_message : Option String
deriving Repr, DecidableEq

/-- `token_blacklist` table (`app/models/token.py` line 7). -/
structure TokenBlacklistRec where
  jti : String
  user_id : Nat
  token_type : String
  reason : Option String
  revoked_at : Nat
  expires_at : Nat
deriving Repr, DecidableEq

/-- The relational store, plus `next_refresh_token_id` (the autoincrement
primary key of `refresh_tokens` assigned at `flush`) and `rng` (the index
of the next draw from the `fresh_token` stream). -/
structure DB where
  users : List UserRec
  refresh_tokens : List RefreshTokenRec
  user_sessions : List UserSessionRec
  security_logs : List SecurityLogRec
  token_blacklist : List TokenBlacklistRec
  next_refresh_token_id : Nat
  rng : Nat
deriving Repr, DecidableEq

/-- Update the first element satisfying `p` (the row returned by
`query(...).first()` and then mutated in place). -/
def updateFirst (p : α → Bool) (f : α → α) : List α → List α
  | [] => []
  | x :: xs => if p x then f x :: xs else x :: updateFirst p f xs

/-! ## Blacklist check (`app/utils/auth.py`) -/

/-- `is_token_blacklisted` (auth.py line 81): a blacklist row with this
`jti` and `expires_at > now` exists. -/
def is_token_blacklisted (jti : String) (db : DB) (now : Nat) : Bool :=
  (db.token_blacklist.find? (fun b => b.jti == jti && decide (now < b.expires_at))).isSome

/-- Python truthiness of the decoded `payload.get("jti")`: `None` and the
empty string are falsy. -/
def jtiTruthy : Option String → Bool
  | none => false
  | some j => !(j == "")

/-- `verify_token` (auth.py line 66): decode (signature, expiry,
well-formedness), then reject when the (truthy) `jti` is blacklisted. -/
def verify_token (token : JWT) (db : DB) (now : Nat) : Option JWTPayload :=
  match jwt_decode token now with
  | none => none
  | some payload =>
    if jtiTruthy payload.jti && is_token_blacklisted (payload.jti.getD "") db now then
      none
    else some payload

/-! ## Signed cookies (`app/utils/cookie_security.py`) -/

/-- A JSON scalar as it appears in the session-metadata cookie
(`session_id`/`device_fingerprint` strings, `remember_me` boolean). -/
inductive JVal where
  | s : String → JVal
  | b : Bool → JVal
deriving Repr, DecidableEq

/-- A JSON object, in insertion order (Python dicts preserve it). -/
abbrev JObj := List (String × JVal)

def jvalDump : JVal → String
  | .s v => "\"" ++ v ++ "\""
  | .b true => "true"
  | .b false => "false"

def jobjDumpEntries : List (String × JVal) → String
  | [] => ""
  | [(k, v)] => "\"" ++ k ++ "\":" ++ jvalDump v
  | (k, v) :: rest => "\"" ++ k ++ "\":" ++ jvalDump v ++ "," ++ jobjDumpEntries rest

/-- `json.dumps(data, separators=(',', ':'))` for the flat objects stored
in cookies (values without characters needing JSON escapes). -/
def json_dumps (o : JObj) : String := "\x7b" ++ jobjDumpEntries o ++ "\x7d"

/-- `hmac.new(key, msg, hashlib.sha256).hexdigest()`, modelled as an
injective pairing (idealised HMAC-SHA256).  Its output is never the empty
string. -/
def hmac_sha256 (key msg : String) : String := "hmac:" ++ key ++ ":" ++ msg

/-- The decoded structure of a `base64(json.dumps({data, signature,
timestamp}))` cookie.  The isoformat timestamp is a `Nat` (seconds). -/
structure SignedCookieBlob where
  data : JObj
  signature : String
  timestamp : Nat
deriving Repr, DecidableEq

/-- A presented cookie string: either it base64/JSON-decodes to a blob, or
it is garbage that makes `verify_cookie_data` hit its `except` arm. -/
inductive CookieString where
  | blob : SignedCookieBlob → CookieString
  | malformed : String → CookieString
deriving Repr, DecidableEq

/-- `SecureCookieManager.sign_cookie_data` (cookie_security.py line 20):
HMAC the compact JSON serialisation of `data` with `JWT_SECRET`, stamp
with the current time. -/
def sign_cookie_data (data : JObj) (now : Nat) : CookieString :=
  CookieString.blob
    { data := data
      signature := hmac_sha256 jwtSecret (json_dumps data)
      timestamp := now }

/-- `SecureCookieManager.verify_cookie_data` (cookie_security.py line 45):
decode; reject when any of `data`/`signature`/`timestamp` is falsy
(`not all([...])` — the empty object and the empty signature are falsy;
the isoformat timestamp string is never empty, so it has no falsy case
here); reject on signature mismatch; reject when the stamp is more than
24 hours in the past. -/
def verify_cookie_data (cookie : CookieString) (now : Nat) : Option JObj :=
  match cookie with
  | .malformed _ => none
  | .blob sc =>
    if sc.data = [] ∨ sc.signature = "" then none
    else if sc.signature ≠ hmac_sha256 jwtSecret (json_dumps sc.data) then none
    else if 24 * 3600 < now - sc.timestamp then none
    else some sc.data

/-! ## Token service (`app/services/token_service.py`) -/

/-- `TokenService.log_security_event` (token_service.py line 349): append a
`SecurityLog` row (commit deferred to the caller). -/
def log_security_event (db : DB) (user_id : Option Nat) (session_id : Option String)
    (event_type event_category severity : String)
    (ip_address user_agent device_fingerprint location : Option String)
    (details : Option (List (String × String)))
    (success : Bool) (error_message : Option String) : DB :=
  { db with security_logs := db.security_logs ++
      [{ user_id := user_id
         session_id := session_id
         event_type := event_type
         event_category := event_category
         severity := severity
         ip_address := ip_address
         user_agent := user_agent
         device_fingerprint := device_fingerprint
         location := location
         details := details
         success := success
         error_message := error_message }] }

/-- `TokenService.get_active_user_sessions` (token_service.py line 279):
sessions of the user with `is_active == True` and `expires_at > now`. -/
def get_active_user_sessions (db : DB) (user_id : Nat) (now : Nat) : List UserSessionRec :=
  db.user_sessions.filter
    (fun s => s.user_id == user_id && s.is_active && decide (now < s.expires_at))

/-- The in-place deactivation `refresh_token.is_active = False`. -/
def deactRT (r : RefreshTokenRec) : RefreshTokenRec := { r with is_active := false }

/-- The in-place termination of a session row performed by
`terminate_session`. -/
def termSS (s : UserSessionRec) (now : Nat) (reason : String) : UserSessionRec :=
  { s with
    is_active := false
    terminated_at := some now
    termination_reason := some reason }

/-- `TokenService.terminate_session` (token_service.py line 289): find the
session by `session_id`; if it exists and is active, terminate it with the
reason, cascade-deactivate its linked refresh token, and return `True`;
otherwise return `False`. -/
def terminate_session (db : DB) (session_id : String) (reason : String) (now : Nat) :
    Bool × DB :=
  match db.user_sessions.find? (fun s => s.session_id == session_id) with
  | none => (false, db)
  | some s =>
    if s.is_active then
      let sessions1 := updateFirst (fun t => t.session_id == session_id)
        (fun t => termSS t now reason) db.user_sessions
      let db1 := { db with user_sessions := sessions1 }
      let db2 :=
        match s.refresh_token_id with
        | some rtid =>
          { db1 with refresh_tokens := updateFirst (fun r => r.id == rtid) deactRT db1.refresh_tokens }
        | none => db1
      (true, db2)
    else (false, db)

/-- One iteration of the loop in `revoke_token_family`: deactivate the
family member `t`, then terminate the first session referencing it (if
any). -/
def revokeFamilyStep (reason : String) (now : Nat) (db : DB) (t : RefreshTokenRec) : DB :=
  let tokens1 := updateFirst (fun r => r.id == t.id) deactRT db.refresh_tokens
  let db1 := { db with refresh_tokens := tokens1 }
  match db1.user_sessions.find? (fun s => s.refresh_token_id == some t.id) with
  | some s => (terminate_session db1 s.session_id reason now).2
  | none => db1

/-- `TokenService.revoke_token_family` (token_service.py line 257): snapshot
the active members of the family, then deactivate each and terminate its
associated session; return how many members the snapshot held.  The
default `reason` at the theft-detection call site is `"security_breach"`. -/
def revoke_token_family (db : DB) (family_id : String) (reason : String) (now : Nat) :
    Nat × DB :=
  let tokens := db.refresh_tokens.filter
    (fun r => r.family_id == family_id && r.is_active)
  (tokens.length, tokens.foldl (revokeFamilyStep reason now) db)

/-- Python's `user.max_concurrent_sessions or 5`: `None` and `0` are falsy
and fall back to the default `5`. -/
def effectiveMaxSessions (user : UserRec) : Nat :=
  match user.max_concurrent_sessions with
  | none => 5
  | some 0 => 5
  | some n => n

/-- `min(active_sessions, key=lambda s: s.created_at)`: first element with
the strictly smallest `created_at` (Python `min` keeps the earliest among
ties); `none` on the empty list (where Python would raise). -/
def minByCreated : List UserSessionRec → Option UserSessionRec
  | [] => none
  | x :: xs =>
    some (xs.foldl (fun acc s => if s.created_at < acc.created_at then s else acc) x)

/-- The concurrent-session-limit eviction step of `create_token_pair`
(token_service.py lines 41-47).  This is the only part of the operation
that commits before the final commit (`terminate_session` commits
internally), so its result is exactly the state that survives a failure
later in `create_token_pair`. -/
def create_token_pair_evict (db : DB) (user : UserRec) (now : Nat) : DB :=
  let active_sessions := get_active_user_sessions db user.id now
  let max_sessions := effectiveMaxSessions user
  if max_sessions ≤ active_sessions.length then
    match minByCreated active_sessions with
    | some oldest => (terminate_session db oldest.session_id "session_limit_exceeded" now).2
    | none => db
  else db

/-- The result dict of `create_token_pair`. -/
structure TokenPairResult where
  access_token : JWT
  refresh_token : String
  token_type : String
  expires_in : Nat
  session_id : String
  device_fingerprint : String
deriving Repr, DecidableEq

/-- `TokenService.create_token_pair` (token_service.py line 22): mint the
access token and opaque refresh secret, evict the oldest session when the
user is at the concurrency limit, insert the `RefreshToken` row (expiry
`now + 30d` with remember-me, else `now + 7d`), insert the `UserSession`
row linked to it, update the user's last-login bookkeeping, and log
`login_success`. -/
def create_token_pair (db : DB) (user : UserRec)
    (ip_address user_agent device_type : String) (location : Option String)
    (remember_me : Bool) (now : Nat) : TokenPairResult × DB :=
  let access_jti := fresh_token db.rng
  let access_token := create_access_token user.email user.id user.is_admin access_jti now
  let refresh_secret := fresh_token (db.rng + 1)
  let device_fp := create_device_fingerprint user_agent ip_address
  let session_id := fresh_token (db.rng + 2)
  let family_id := fresh_token (db.rng + 3)
  let db1 := create_token_pair_evict db user now
  let db1 := { db1 with rng := db1.rng + 4 }
  let expires_at := now + (if remember_me then 30 else 7) * 86400
  let rt_rec : RefreshTokenRec :=
    { id := db1.next_refresh_token_id
      token_hash := hash_token refresh_secret
      user_id := user.id
      device_fingerprint := device_fp
      family_id := family_id
      ip_address := ip_address
      user_agent := user_agent
      device_type := device_type
      location := location
      is_active := true
      created_at := now
      last_used_at := now
      expires_at := expires_at }
  let db2 := { db1 with
    refresh_tokens := db1.refresh_tokens ++ [rt_rec]
    next_refresh_token_id := db1.next_refresh_token_id + 1 }
  let sess : UserSessionRec :=
    { session_id := session_id
      user_id := user.id
      refresh_token_id := some rt_rec.id
      ip_address := ip_address
      user_agent := user_agent
      device_type := device_type
      device_fingerprint := device_fp
      location := location
      is_active := true
      is_remember_me := remember_me
      created_at := now
      last_activity_at := now
      expires_at := expires_at
      terminated_at := none
      termination_reason := none }
  let db3 := { db2 with user_sessions := db2.user_sessions ++ [sess] }
  let users1 := updateFirst (fun u => u.id == user.id)
    (fun u => { u with
      last_login_at := some now
      last_login_ip := some ip_address
      failed_login_attempts := 0 }) db3.users
  let db4 := { db3 with users := users1 }
  let db5 := log_security_event db4 (some user.id) (some session_id)
    "login_success" "auth" "low" (some ip_address) (some user_agent) (some device_fp)
    location
    (some [("remember_me", if remember_me then "true" else "false"),
           ("device_type", device_type)]) true none
  ({ access_token := access_token
     refresh_token := refresh_secret
     token_type := "bearer"
     expires_in := ACCESS_TOKEN_EXPIRE_MINUTES * 60
     session_id := session_id
     device_fingerprint := device_fp }, db5)

/-- The lookup predicate of the refresh flow (token_service.py lines
130-136): matching hash, `is_active == True`, `expires_at > now`. -/
def activeTokenPred (token_hash : String) (now : Nat) (r : RefreshTokenRec) : Bool :=
  r.token_hash == token_hash && r.is_active && decide (now < r.expires_at)

/-- `findActiveRefreshToken` of the spec: the `query(RefreshToken).filter(
hash, is_active, expires_at > now).first()` lookup used by the refresh
flow. -/
def findActiveRefreshToken (db : DB) (token_hash : String) (now : Nat) :
    Option RefreshTokenRec :=
  db.refresh_tokens.find? (activeTokenPred token_hash now)

/-- Python truthiness of `if device_fingerprint and device_fingerprint !=
current_fingerprint`: `None` and `""` never trigger the mismatch branch. -/
def fingerprint_mismatch (supplied : Option String) (current : String) : Bool :=
  match supplied with
  | none => false
  | some f => !(f == "") && !(f == current)

/-- The result dict of `refresh_access_token`. -/
structure RefreshResult where
  access_token : JWT
  refresh_token : String
  token_type : String
  expires_in : Nat
deriving Repr, DecidableEq

/-- `TokenService.refresh_access_token` (token_service.py line 118): look up
the presented secret's hash among active unexpired rows (miss logs
`invalid_refresh_token` and fails); load the owning user (missing or
inactive fails silently); on a supplied mismatching device fingerprint log
`device_fingerprint_mismatch` and revoke the whole family; otherwise
rotate: deactivate the presented row, insert a new row with the same
family id and expiry, repoint the first session referencing the old row,
and log `token_refresh`. -/
def refresh_access_token (db : DB) (refresh_token : String)
    (ip_address user_agent : String) (device_fingerprint : Option String)
    (now : Nat) : Option RefreshResult × DB :=
  let token_hash := hash_token refresh_token
  match findActiveRefreshToken db token_hash now with
  | none =>
    (none, log_security_event db none none "invalid_refresh_token" "suspicious"
      "medium" (some ip_address) (some user_agent) none none
      (some [("reason", "token_not_found_or_expired")]) true none)
  | some rec =>
    match db.users.find? (fun u => u.id == rec.user_id) with
    | none => (none, db)
    | some user =>
      if !user.is_active then (none, db)
      else
        let current_fp := create_device_fingerprint user_agent ip_address
        if fingerprint_mismatch device_fingerprint current_fp then
          let dbA := log_security_event db (some user.id) none
            "device_fingerprint_mismatch" "suspicious" "high" (some ip_address)
            (some user_agent) none none
            (some [("expected_fingerprint", device_fingerprint.getD ""),
                   ("actual_fingerprint", current_fp)]) true none
          (none, (revoke_token_family dbA rec.family_id "security_breach" now).2)
        else
          let access_jti := fresh_token db.rng
          let access_token := create_access_token user.email user.id user.is_admin
            access_jti now
          let new_refresh_secret := fresh_token (db.rng + 1)
          let dbR := { db with rng := db.rng + 2 }
          let rotated := updateFirst (activeTokenPred token_hash now) deactRT dbR.refresh_tokens
          let dbB := { dbR with refresh_tokens := rotated }
          let new_rec : RefreshTokenRec :=
            { id := dbB.next_refresh_token_id
              token_hash := hash_token new_refresh_secret
              user_id := user.id
              device_fingerprint := rec.device_fingerprint
              family_id := rec.family_id
              ip_address := ip_address
              user_agent := user_agent
              device_type := rec.device_type
              location := rec.location
              is_active := true
              created_at := now
              last_used_at := now
              expires_at := rec.expires_at }
          let dbC := { dbB with
            refresh_tokens := dbB.refresh_tokens ++ [new_rec]
            next_refresh_token_id := dbB.next_refresh_token_id + 1 }
          let repoint := updateFirst (fun t => t.refresh_token_id == some rec.id)
            (fun t => { t with
              refresh_token_id := some new_rec.id
              last_activity_at := now
              ip_address := ip_address })
            dbC.user_sessions
          let step :=
            match dbC.user_sessions.find? (fun s => s.refresh_token_id == some rec.id) with
            | some s => (some s.session_id, { dbC with user_sessions := repoint })
            | none => (none, dbC)
          let dbE := log_security_event step.2 (some user.id) step.1 "token_refresh"
            "auth" "low" (some ip_address) (some user_agent) (some current_fp)
            none none true none
          (some { access_token := access_token
                  refresh_token := new_refresh_secret
                  token_type := "bearer"
                  expires_in := ACCESS_TOKEN_EXPIRE_MINUTES * 60 }, dbE)

/-! ## Cleanup (`app/services/cleanup_service.py`) -/

/-- The per-category row counts returned by
`CleanupService.cleanup_expired_tokens`. -/
structure CleanupCounts where
  blacklist_tokens : Nat
  refresh_tokens : Nat
  sessions : Nat
  inactive_refresh_tokens : Nat
  inactive_sessions : Nat
deriving Repr, DecidableEq

/-- `CleanupService.cleanup_expired_tokens` (cleanup_service.py line 28):
delete blacklist rows, refresh-token rows and session rows past
`expires_at`; then deactivate refresh tokens unused for 30+ days and
terminate sessions idle for 30+ days with reason `inactivity_timeout`. -/
def cleanup_expired_tokens (db : DB) (now : Nat) : CleanupCounts × DB :=
  let expired_bl := db.token_blacklist.filter (fun b => decide (b.expires_at ≤ now))
  let bl1 := db.token_blacklist.filter (fun b => !(decide (b.expires_at ≤ now)))
  let expired_rt := db.refresh_tokens.filter (fun r => decide (r.expires_at ≤ now))
  let rt1 := db.refresh_tokens.filter (fun r => !(decide (r.expires_at ≤ now)))
  let expired_ss := db.user_sessions.filter (fun s => decide (s.expires_at ≤ now))
  let ss1 := db.user_sessions.filter (fun s => !(decide (s.expires_at ≤ now)))
  let inactive_threshold := now - 30 * 86400
  let idle_rt := rt1.filter
    (fun r => r.is_active && decide (r.last_used_at ≤ inactive_threshold))
  let rt2 := rt1.map
    (fun r => if r.is_active && decide (r.last_used_at ≤ inactive_threshold) then
      { r with is_active := false } else r)
  let idle_ss := ss1.filter
    (fun s => s.is_active && decide (s.last_activity_at ≤ inactive_threshold))
  let ss2 := ss1.map
    (fun s => if s.is_active && decide (s.last_activity_at ≤ inactive_threshold) then
      { s with
        is_active := false
        terminated_at := some now
        termination_reason := some "inactivity_timeout" } else s)
  ({ blacklist_tokens := expired_bl.length
     refresh_tokens := expired_rt.length
     sessions := expired_ss.length
     inactive_refresh_tokens := idle_rt.length
     inactive_sessions := idle_ss.length },
   { db with token_blacklist := bl1, refresh_tokens := rt2, user_sessions := ss2 })

/-! ## Derived notions used by the statements -/

/-- The state evolution performed by the body of `revoke_token_family`:
refresh-token rows are unchanged or deactivated in place, session rows are
unchanged or terminated in place with the given reason, and nothing else
in the store moves. -/
def deactEvol (reason : String) (now : Nat) (db db' : DB) : Prop :=
  List.Forall₂ (fun r r' => r' = r ∨ r' = deactRT r) db.refresh_tokens db'.refresh_tokens ∧
  List.Forall₂ (fun s s' => s' = s ∨ s' = termSS s now reason) db.user_sessions db'.user_sessions ∧
  db'.users = db.users ∧
  db'.security_logs = db.security_logs ∧
  db'.token_blacklist = db.token_blacklist ∧
  db'.next_refresh_token_id = db.next_refresh_token_id ∧
  db'.rng = db.rng

/-- No two rows of `refresh_tokens` share a primary key (database PK
constraint on `refresh_tokens.id`). -/
def rtIdsNodup (db : DB) : Prop := (db.refresh_tokens.map (fun r => r.id)).Nodup

/-- No two rows of `user_sessions` share a `session_id` (unique column
constraint). -/
def sessionIdsNodup (db : DB) : Prop :=
  (db.user_sessions.map (fun s => s.session_id)).Nodup

/-- No two session rows reference the same refresh token: every session is
created referencing its own freshly inserted token and rotation repoints
the single referencing session, so `refresh_token_id` is single-use on
reachable states. -/
def sessionRTIDUnique (db : DB) : Prop :=
  (db.user_sessions.map (fun s => s.refresh_token_id)).Pairwise
    (fun a b => ∀ i : Nat, a = some i → b ≠ some i)

/-! ## Sample data for concrete instantiations -/

def sampleUser : UserRec :=
  { id := 1
    email := "u@example.com"
    is_admin := false
    is_active := true
    max_concurrent_sessions := some 1
    failed_login_attempts := 0
    last_login_at := none
    last_login_ip := none }

/-- An active refresh token whose opaque secret is draw 0 of the fresh
stream. -/
def sampleRT : RefreshTokenRec :=
  { id := 10
    token_hash := hash_token (fresh_token 0)
    user_id := 1
    device_fingerprint := create_device_fingerprint "ua" "ip"
    family_id := "fam"
    ip_address := "ip"
    user_agent := "ua"
    device_type := "web"
    location := none
    is_active := true
    created_at := 0
    last_used_at := 0
    expires_at := 1000 }

def sampleSession : UserSessionRec :=
  { session_id := "sid1"
    user_id := 1
    refresh_token_id := some 10
    ip_address := "ip"
    user_agent := "ua"
    device_type := "web"
    device_fingerprint := create_device_fingerprint "ua" "ip"
    location := none
    is_active := true
    is_remember_me := false
    created_at := 0
    last_activity_at := 0
    expires_at := 1000
    terminated_at := none
    termination_reason := none }

/-- One active user with one active session/token pair; the next fresh
draw is 1. -/
def sampleDB : DB :=
  { users := [sampleUser]
    refresh_tokens := [sampleRT]
    user_sessions := [sampleSession]
    security_logs := []
    token_blacklist := []
    next_refresh_token_id := 11
    rng := 1 }

/-- `sampleDB` with its refresh token already rotated away (deactivated). -/
def sampleDBRotated : DB :=
  { sampleDB with refresh_tokens := [deactRT sampleRT] }

/-- An expired refresh token (for the cleanup claim). -/
def sampleRTExpired : RefreshTokenRec := { sampleRT with id := 12, expires_at := 50 }

def sampleDBExpired : DB :=
  { sampleDB with refresh_tokens := [sampleRTExpired] }

/-- A blacklist row for jti `"j1"` that expires at time 80. -/
def sampleBL : TokenBlacklistRec :=
  { jti := "j1"
    user_id := 1
    token_type := "access"
    reason := some "logout"
    revoked_at := 0
    expires_at := 80 }

def sampleDBBlacklist : DB := { sampleDB with token_blacklist := [sampleBL] }

/-- A well-signed access token carrying jti `"j1"`, expiring at 900. -/
def samplePayload : JWTPayload :=
  { sub := "u@example.com"
    user_id := 1
    is_admin := false
    exp := 900
    iat := 0
    jti := some "j1"
    token_type := "access" }

/-- `sampleDB` without the session row (orphaned refresh token). -/
def sampleDBNoSession : DB := { sampleDB with user_sessions := [] }

/-! ## Generic lemmas about the list-level store operations -/

theorem updateFirst_decomp {α : Type} {p : α → Bool} {f : α → α} {l : List α} {a : α}
    (h : l.find? p = some a) :
    ∃ l₁ l₂, l = l₁ ++ a :: l₂ ∧ (∀ b ∈ l₁, p b = false) ∧ p a = true ∧
      updateFirst p f l = l₁ ++ f a :: l₂ := by
  induction l with
  | nil => simp [List.find?] at h
  | cons x xs ih =>
    by_cases hp : p x = true
    · rw [List.find?_cons_of_pos _ hp] at h
      obtain rfl : x = a := by injection h
      exact ⟨[], xs, by simp, by simp, hp, by simp [updateFirst, hp]⟩
    · have hp' : p x = false := by simpa using hp
      rw [List.find?_cons_of_neg _ (by simp [hp'])] at h
      obtain ⟨l₁, l₂, hl, hl₁, hpa, hres⟩ := ih h
      refine ⟨x :: l₁, l₂, by simp [hl], ?_, hpa, by simp [updateFirst, hp', hres]⟩
      intro b hb
      rcases List.mem_cons.1 hb with rfl | hb'
      · exact hp'
      · exact hl₁ b hb'

theorem map_updateFirst {α β : Type} {p : α → Bool} {f : α → α} (g : α → β) (l : List α)
    (hgf : ∀ a, p a = true → g (f a) = g a) :
    (updateFirst p f l).map g = l.map g := by
  induction l with
  | nil => rfl
  | cons x xs ih =>
    by_cases hp : p x = true
    · simp [updateFirst, hp, hgf x hp]
    · have hp' : p x = false := by simpa using hp
      simp [updateFirst, hp', ih]

theorem forall₂_updateFirst {α : Type} {p : α → Bool} {f : α → α} (l : List α) :
    List.Forall₂ (fun a b => b = a ∨ b = f a) l (updateFirst p f l) := by
  induction l with
  | nil => exact List.Forall₂.nil
  | cons x xs ih =>
    by_cases hp : p x = true
    · simp only [updateFirst, hp, if_true]
      exact List.Forall₂.cons (Or.inr rfl) (List.forall₂_same.mpr (fun y _ => Or.inl rfl))
    · have hp' : p x = false := by simpa using hp
      simp only [updateFirst, hp', Bool.false_eq_true, if_false]
      exact List.Forall₂.cons (Or.inl rfl) ih

theorem forall₂_mem_left {α β : Type} {R : α → β → Prop} {l₁ : List α} {l₂ : List β}
    (h : List.Forall₂ R l₁ l₂) {a : α} (ha : a ∈ l₁) : ∃ b ∈ l₂, R a b := by
  induction h with
  | nil => simp at ha
  | @cons x y xs ys hr _ ih =>
    rcases List.mem_cons.1 ha with rfl | ha'
    · exact ⟨y, List.mem_cons_self y ys, hr⟩
    · obtain ⟨b, hb, hbr⟩ := ih ha'
      exact ⟨b, List.mem_cons_of_mem y hb, hbr⟩

theorem forall₂_mem_right {α β : Type} {R : α → β → Prop} {l₁ : List α} {l₂ : List β}
    (h : List.Forall₂ R l₁ l₂) {b : β} (hb : b ∈ l₂) : ∃ a ∈ l₁, R a b := by
  induction h with
  | nil => simp at hb
  | @cons x y xs ys hr _ ih =>
    rcases List.mem_cons.1 hb with rfl | hb'
    · exact ⟨x, List.mem_cons_self x xs, hr⟩
    · obtain ⟨a, ha, har⟩ := ih hb'
      exact ⟨a, List.mem_cons_of_mem x ha, har⟩

theorem find?_key_unique {α : Type} {κ : Type} [DecidableEq κ] [BEq κ] [LawfulBEq κ]
    {g : α → κ} {v : κ} {l : List α} {a : α}
    (huniq : (l.map g).Pairwise (fun x y => x = v → y ≠ v))
    (ha : a ∈ l) (hk : g a = v) :
    l.find? (fun x => g x == v) = some a := by
  induction l with
  | nil => simp at ha
  | cons x xs ih =>
    simp only [List.map_cons, List.pairwise_cons] at huniq
    rcases List.mem_cons.1 ha with rfl | ha'
    · exact List.find?_cons_of_pos _ (by simp [hk])
    · by_cases hx : g x = v
      · exact absurd hk (huniq.1 (g a) (List.mem_map_of_mem g ha') hx)
      · rw [List.find?_cons_of_neg _ (by simp [hx])]
        exact ih huniq.2 ha'

theorem hmac_sha256_ne_empty (k m : String) : hmac_sha256 k m ≠ "" := by
  intro h
  have hl := congrArg String.length h
  have h5 : ("hmac:" : String).length = 5 := rfl
  simp only [hmac_sha256, String.length_append, String.length_empty] at hl
  omega

/-! ## C7 — cookie sign/verify round trip -/

/-- C7 (counterexample): the claim quantifies over *every* structured
payload, but `verify_cookie_data` applies Python's `not all([data, ...])`
falsiness guard, so signing the empty object and verifying it immediately
(well inside the 24-hour window) yields `none`, not the original payload. -/
theorem C7_counterexample_empty_payload :
    verify_cookie_data (sign_cookie_data ([] : JObj) 0) 0 = none := by decide

/-- C7 (amended): for every **non-empty** structured payload, signing and
then verifying within the 24-hour staleness window returns the original
payload unchanged, and verifying a blob stamped 25 hours in the past
returns null. -/
theorem C7_sign_verify_roundtrip (data : JObj) (t now : Nat)
    (hne : data ≠ []) (hwin : now - t ≤ 24 * 3600) :
    verify_cookie_data (sign_cookie_data data t) now = some data ∧
    verify_cookie_data (sign_cookie_data data t) (t + 25 * 3600) = none := by
  constructor
  · simp only [sign_cookie_data, verify_cookie_data]
    rw [if_neg, if_neg, if_neg]
    · omega
    · simp
    · rintro (h | h)
      · exact hne h
      · exact hmac_sha256_ne_empty _ _ h
  · simp only [sign_cookie_data, verify_cookie_data]
    by_cases hd : data = []
    · rw [if_pos (Or.inl hd)]
    · rw [if_neg, if_neg, if_pos]
      · omega
      · simp
      · rintro (h | h)
        · exact hd h
        · exact hmac_sha256_ne_empty _ _ h

theorem C7_witness :
    ([("session_id", JVal.s "sid1")] : JObj) ≠ [] ∧ (100 : Nat) - 0 ≤ 24 * 3600 ∧
    (verify_cookie_data (sign_cookie_data [("session_id", JVal.s "sid1")] 0) 100 =
        some [("session_id", JVal.s "sid1")] ∧
      verify_cookie_data (sign_cookie_data [("session_id", JVal.s "sid1")] 0)
        (0 + 25 * 3600) = none) :=
  ⟨by decide, by decide,
    C7_sign_verify_roundtrip [("session_id", JVal.s "sid1")] 0 100 (by decide) (by decide)⟩

/-! ## C8 — expired refresh tokens are invisible and swept -/

/-- C8: a refresh-token row whose `expires_at` is in the past is never
returned by the active-token lookup used by the refresh flow (its filter
requires `expires_at > now`), and the expired-row sweep of
`CleanupService.cleanup_expired_tokens` removes it from the store. -/
theorem C8_expired_token_invisible_and_swept (db : DB) (now : Nat)
    (r : RefreshTokenRec) (h : String)
    (hr : r ∈ db.refresh_tokens) (hexp : r.expires_at ≤ now) :
    findActiveRefreshToken db h now ≠ some r ∧
    r ∉ (cleanup_expired_tokens db now).2.refresh_tokens := by
  constructor
  · intro hfind
    have hp := List.find?_some hfind
    simp only [activeTokenPred, Bool.and_eq_true, decide_eq_true_eq] at hp
    omega
  · intro hmem
    have hall : ∀ x ∈ (cleanup_expired_tokens db now).2.refresh_tokens,
        now < x.expires_at := by
      intro x hx
      simp only [cleanup_expired_tokens] at hx
      obtain ⟨y, hy, hyx⟩ := List.mem_map.1 hx
      have hy' := List.of_mem_filter hy
      simp only [Bool.not_eq_true', decide_eq_false_iff_not, Nat.not_le] at hy'
      by_cases hc : y.is_active = true ∧ y.last_used_at ≤ now - 30 * 86400
      · rw [if_pos (by simp [hc.1, hc.2])] at hyx
        subst hyx
        exact hy'
      · rw [if_neg (by simpa [Bool.and_eq_true, decide_eq_true_eq] using hc)] at hyx
        subst hyx
        exact hy'
    have := hall r hmem
    omega

theorem C8_witness :
    sampleRTExpired ∈ sampleDBExpired.refresh_tokens ∧ sampleRTExpired.expires_at ≤ 100 ∧
    (findActiveRefreshToken sampleDBExpired (hash_token (fresh_token 0)) 100 ≠
        some sampleRTExpired ∧
      sampleRTExpired ∉ (cleanup_expired_tokens sampleDBExpired 100).2.refresh_tokens) :=
  ⟨by decide, by decide,
    C8_expired_token_invisible_and_swept sampleDBExpired 100 sampleRTExpired
      (hash_token (fresh_token 0)) (by decide) (by decide)⟩

theorem verify_token_signed_ok (p : JWTPayload) (db : DB) (now : Nat)
    (hexp : ¬ p.exp < now) :
    verify_token (JWT.signed p jwtSecret) db now =
      if (jtiTruthy p.jti && is_token_blacklisted (p.jti.getD "") db now) = true
      then none else some p := by
  simp [verify_token, jwt_decode, hexp]

/-! ## C10 — blacklist entries only bite until their own expiry -/

/-- C10: `is_token_blacklisted` treats a jti as blacklisted exactly while a
blacklist row with that jti has `expires_at` in the future; once every
such row has expired, a well-signed token with that jti whose own `exp`
has not passed verifies successfully again. -/
theorem C10_blacklist_expiry_scoped (db : DB) (now : Nat) (p : JWTPayload) (j : String)
    (hj : p.jti = some j)
    (hentries : ∀ b ∈ db.token_blacklist, b.jti = j → b.expires_at ≤ now)
    (hexp : ¬ p.exp < now) :
    is_token_blacklisted j db now = false ∧
    verify_token (JWT.signed p jwtSecret) db now = some p := by
  have hfind : db.token_blacklist.find?
      (fun b => b.jti == j && decide (now < b.expires_at)) = none := by
    rw [List.find?_eq_none]
    intro b hb
    simp only [Bool.and_eq_true, beq_iff_eq, decide_eq_true_eq, not_and]
    intro hbj
    have := hentries b hb hbj
    omega
  have hbl : is_token_blacklisted j db now = false := by
    simp [is_token_blacklisted, hfind]
  refine ⟨hbl, ?_⟩
  rw [verify_token_signed_ok p db now hexp, if_neg]
  rw [hj]
  simp [hbl]

theorem C10_witness :
    samplePayload.jti = some "j1" ∧
    (∀ b ∈ sampleDBBlacklist.token_blacklist, b.jti = "j1" → b.expires_at ≤ 100) ∧
    ¬ samplePayload.exp < 100 ∧
    (is_token_blacklisted "j1" sampleDBBlacklist 100 = false ∧
      verify_token (JWT.signed samplePayload jwtSecret) sampleDBBlacklist 100 =
        some samplePayload) :=
  ⟨by decide, by decide, by decide,
    C10_blacklist_expiry_scoped sampleDBBlacklist 100 samplePayload "j1"
      (by decide) (by decide) (by decide)⟩

/-! ## C6 — access-token verification -/

/-- C6: verification succeeds exactly on a token signed with the server
secret whose `exp` has not passed and whose (truthy) jti is not currently
blacklisted; hence it fails on malformed tokens, wrong-key signatures,
expired tokens, and tokens whose jti is present in the blacklist, and the
blacklist is consulted on every well-signed unexpired token carrying a
jti. -/
theorem C6_verify_token_characterisation (t : JWT) (db : DB) (now : Nat) (p : JWTPayload) :
    verify_token t db now = some p ↔
      (t = JWT.signed p jwtSecret ∧ ¬ p.exp < now ∧
        ∀ j, p.jti = some j → j ≠ "" → is_token_blacklisted j db now = false) := by
  constructor
  · intro h
    cases t with
    | malformed s => simp [verify_token, jwt_decode] at h
    | signed q k =>
      by_cases hk : k = jwtSecret
      · subst hk
        by_cases hexp : q.exp < now
        · simp [verify_token, jwt_decode, hexp] at h
        · rw [verify_token_signed_ok q db now hexp] at h
          by_cases hc :
              (jtiTruthy q.jti && is_token_blacklisted (q.jti.getD "") db now) = true
          · rw [if_pos hc] at h
            exact absurd h (by simp)
          · rw [if_neg hc] at h
            obtain rfl : q = p := by injection h
            refine ⟨rfl, hexp, fun j hj hj' => ?_⟩
            rw [hj] at hc
            simp only [jtiTruthy, Option.getD_some, Bool.and_eq_true, not_and] at hc
            have h1 : (!(j == "")) = true := by simp [hj']
            by_cases hb : is_token_blacklisted j db now = true
            · exact absurd hb (hc h1)
            · simpa using hb
      · simp [verify_token, jwt_decode, hk] at h
  · rintro ⟨rfl, hexp, hbl⟩
    rw [verify_token_signed_ok p db now hexp, if_neg]
    intro hc
    rw [Bool.and_eq_true] at hc
    obtain ⟨ht, hb⟩ := hc
    cases hj : p.jti with
    | none => rw [hj] at ht; simp [jtiTruthy] at ht
    | some j =>
      rw [hj] at ht hb
      simp only [jtiTruthy] at ht
      have hj' : j ≠ "" := by simpa using ht
      rw [Option.getD_some, hbl j hj hj'] at hb
      exact absurd hb (by simp)

theorem C6_witness :
    verify_token (JWT.signed samplePayload jwtSecret) sampleDBBlacklist 100 =
      some samplePayload := by
  apply (C6_verify_token_characterisation (JWT.signed samplePayload jwtSecret)
    sampleDBBlacklist 100 samplePayload).mpr
  refine ⟨rfl, by decide, ?_⟩
  intro j hj hj'
  have hj1 : samplePayload.jti = some "j1" := by decide
  rw [hj1] at hj
  obtain rfl : "j1" = j := Option.some.inj hj
  decide

/-! ## C3 — a rotated-away (deactivated) refresh token never refreshes again -/

/-- C3: when every stored row carrying the presented secret's hash is
deactivated (as after rotation), `refresh_access_token` fails, inserts no
refresh-token row, leaves sessions and users untouched, and appends
exactly one `invalid_refresh_token` security event. -/
theorem C3_rotated_secret_never_refreshes (db : DB) (tok ip ua : String)
    (fp : Option String) (now : Nat)
    (hdead : ∀ r ∈ db.refresh_tokens, r.token_hash = hash_token tok → r.is_active = false) :
    (refresh_access_token db tok ip ua fp now).1 = none ∧
    (refresh_access_token db tok ip ua fp now).2.refresh_tokens = db.refresh_tokens ∧
    (refresh_access_token db tok ip ua fp now).2.user_sessions = db.user_sessions ∧
    (refresh_access_token db tok ip ua fp now).2.users = db.users ∧
    ∃ e : SecurityLogRec,
      (refresh_access_token db tok ip ua fp now).2.security_logs =
        db.security_logs ++ [e] ∧
      e.event_type = "invalid_refresh_token" ∧ e.event_category = "suspicious" ∧
      e.severity = "medium" := by
  have hfind : findActiveRefreshToken db (hash_token tok) now = none := by
    rw [findActiveRefreshToken, List.find?_eq_none]
    intro r hr
    simp only [activeTokenPred, Bool.and_eq_true, beq_iff_eq, decide_eq_true_eq, not_and]
    intro h1 _
    obtain ⟨hh, ha⟩ := h1
    rw [hdead r hr hh] at ha
    simp at ha
  have hout : refresh_access_token db tok ip ua fp now =
      (none, log_security_event db none none "invalid_refresh_token" "suspicious"
        "medium" (some ip) (some ua) none none
        (some [("reason", "token_not_found_or_expired")]) true none) := by
    simp only [refresh_access_token, hfind]
  rw [hout]
  exact ⟨rfl, rfl, rfl, rfl, _, rfl, rfl, rfl, rfl⟩

theorem C3_witness :
    (∀ r ∈ sampleDBRotated.refresh_tokens,
      r.token_hash = hash_token (fresh_token 0) → r.is_active = false) ∧
    ((refresh_access_token sampleDBRotated (fresh_token 0) "ip" "ua" none 100).1 = none ∧
      (refresh_access_token sampleDBRotated (fresh_token 0) "ip" "ua" none 100).2.refresh_tokens =
        sampleDBRotated.refresh_tokens ∧
      (refresh_access_token sampleDBRotated (fresh_token 0) "ip" "ua" none 100).2.user_sessions =
        sampleDBRotated.user_sessions ∧
      (refresh_access_token sampleDBRotated (fresh_token 0) "ip" "ua" none 100).2.users =
        sampleDBRotated.users ∧
      ∃ e : SecurityLogRec,
        (refresh_access_token sampleDBRotated (fresh_token 0) "ip" "ua" none 100).2.security_logs =
          sampleDBRotated.security_logs ++ [e] ∧
        e.event_type = "invalid_refresh_token" ∧ e.event_category = "suspicious" ∧
        e.severity = "medium") :=
  ⟨by decide,
    C3_rotated_secret_never_refreshes sampleDBRotated (fresh_token 0) "ip" "ua" none 100
      (by decide)⟩

/-! ## Rotation success path (shared by C2 and C9) -/

theorem refresh_success_proj (db : DB) (tok ip ua : String) (fp : Option String)
    (now : Nat) (rec : RefreshTokenRec) (user : UserRec)
    (hfind : findActiveRefreshToken db (hash_token tok) now = some rec)
    (huser : db.users.find? (fun u => u.id == rec.user_id) = some user)
    (hactive : user.is_active = true)
    (hfp : fingerprint_mismatch fp (create_device_fingerprint ua ip) = false) :
    (refresh_access_token db tok ip ua fp now).1 =
      some { access_token :=
               create_access_token user.email user.id user.is_admin (fresh_token db.rng) now
             refresh_token := fresh_token (db.rng + 1)
             token_type := "bearer"
             expires_in := ACCESS_TOKEN_EXPIRE_MINUTES * 60 } ∧
    (refresh_access_token db tok ip ua fp now).2.refresh_tokens =
      updateFirst (activeTokenPred (hash_token tok) now) deactRT db.refresh_tokens ++
        [{ id := db.next_refresh_token_id
           token_hash := hash_token (fresh_token (db.rng + 1))
           user_id := user.id
           device_fingerprint := rec.device_fingerprint
           family_id := rec.family_id
           ip_address := ip
           user_agent := ua
           device_type := rec.device_type
           location := rec.location
           is_active := true
           created_at := now
           last_used_at := now
           expires_at := rec.expires_at }] := by
  simp only [refresh_access_token, hfind, huser, hactive, hfp, Bool.not_true,
    Bool.false_eq_true, if_false]
  cases hss : db.user_sessions.find? (fun s => s.refresh_token_id == some rec.id) with
  | none => exact ⟨trivial, rfl⟩
  | some s => exact ⟨trivial, rfl⟩

/-! ## C2 — rotation: fresh secret, old row deactivated, family and expiry kept -/

/-- C2: a successful refresh of an active, unexpired token (owned by an
active account, with no fingerprint mismatch) returns a refresh secret
different from the presented one — the presented secret is an earlier
draw of the fresh stream, by the freshness hypothesis on stored hashes —
deactivates the presented row in place, and inserts a new row with the
same family id and the same expiry timestamp. -/
theorem C2_rotation_fresh_secret_same_family (db : DB) (tok ip ua : String)
    (fp : Option String) (now : Nat) (rec : RefreshTokenRec) (user : UserRec)
    (hfind : findActiveRefreshToken db (hash_token tok) now = some rec)
    (huser : db.users.find? (fun u => u.id == rec.user_id) = some user)
    (hactive : user.is_active = true)
    (hfp : fingerprint_mismatch fp (create_device_fingerprint ua ip) = false)
    (hfreshness : ∀ r ∈ db.refresh_tokens,
      ∃ k, k < db.rng ∧ r.token_hash = hash_token (fresh_token k)) :
    ∃ res : RefreshResult,
      (refresh_access_token db tok ip ua fp now).1 = some res ∧
      res.refresh_token ≠ tok ∧
      deactRT rec ∈ (refresh_access_token db tok ip ua fp now).2.refresh_tokens ∧
      ∃ nr ∈ (refresh_access_token db tok ip ua fp now).2.refresh_tokens,
        nr.token_hash = hash_token res.refresh_token ∧
        nr.family_id = rec.family_id ∧ nr.expires_at = rec.expires_at ∧
        nr.is_active = true := by
  obtain ⟨h1, h2⟩ := refresh_success_proj db tok ip ua fp now rec user hfind huser hactive hfp
  refine ⟨_, h1, ?_, ?_, ?_⟩
  · intro heq
    have hp : activeTokenPred (hash_token tok) now rec = true := List.find?_some hfind
    simp only [activeTokenPred, Bool.and_eq_true, beq_iff_eq] at hp
    have hhash : rec.token_hash = hash_token tok := hp.1.1
    obtain ⟨k, hk, hkh⟩ := hfreshness rec (List.mem_of_find?_eq_some hfind)
    rw [hkh] at hhash
    have htok : fresh_token k = tok := hash_token_injective hhash
    rw [← htok] at heq
    have := fresh_token_injective heq
    omega
  · rw [h2]
    obtain ⟨l₁, l₂, _, _, _, hupd⟩ :=
      updateFirst_decomp (f := deactRT) (show db.refresh_tokens.find?
        (activeTokenPred (hash_token tok) now) = some rec from hfind)
    rw [hupd]
    exact List.mem_append_left _ (List.mem_append_right _ (List.mem_cons_self _ _))
  · rw [h2]
    exact ⟨_, List.mem_append_right _ (List.mem_cons_self _ _), rfl, rfl, rfl, rfl⟩

theorem C2_witness :
    findActiveRefreshToken sampleDB (hash_token (fresh_token 0)) 100 = some sampleRT ∧
    sampleDB.users.find? (fun u => u.id == sampleRT.user_id) = some sampleUser ∧
    sampleUser.is_active = true ∧
    fingerprint_mismatch none (create_device_fingerprint "ua" "ip") = false ∧
    (∃ res : RefreshResult,
      (refresh_access_token sampleDB (fresh_token 0) "ip" "ua" none 100).1 = some res ∧
      res.refresh_token ≠ fresh_token 0 ∧
      deactRT sampleRT ∈
        (refresh_access_token sampleDB (fresh_token 0) "ip" "ua" none 100).2.refresh_tokens ∧
      ∃ nr ∈ (refresh_access_token sampleDB (fresh_token 0) "ip" "ua" none 100).2.refresh_tokens,
        nr.token_hash = hash_token res.refresh_token ∧
        nr.family_id = sampleRT.family_id ∧ nr.expires_at = sampleRT.expires_at ∧
        nr.is_active = true) :=
  ⟨by decide, by decide, by decide, by decide,
    C2_rotation_fresh_secret_same_family sampleDB (fresh_token 0) "ip" "ua" none 100
      sampleRT sampleUser (by decide) (by decide) (by decide) (by decide)
      (by
        intro r hr
        have hr' : r = sampleRT := by
          simpa [sampleDB] using hr
        exact ⟨0, by decide, by rw [hr']; rfl⟩)⟩

/-! ## C9 — refresh of a session-less (orphaned) valid token still succeeds -/

theorem refresh_no_session_proj (db : DB) (tok ip ua : String) (fp : Option String)
    (now : Nat) (rec : RefreshTokenRec) (user : UserRec)
    (hfind : findActiveRefreshToken db (hash_token tok) now = some rec)
    (huser : db.users.find? (fun u => u.id == rec.user_id) = some user)
    (hactive : user.is_active = true)
    (hfp : fingerprint_mismatch fp (create_device_fingerprint ua ip) = false)
    (hnosess : ∀ s ∈ db.user_sessions, s.refresh_token_id ≠ some rec.id) :
    (refresh_access_token db tok ip ua fp now).2.user_sessions = db.user_sessions ∧
    (refresh_access_token db tok ip ua fp now).2.security_logs =
      db.security_logs ++
        [{ user_id := some user.id
           session_id := none
           event_type := "token_refresh"
           event_category := "auth"
           severity := "low"
           ip_address := some ip
           user_agent := some ua
           device_fingerprint := some (create_device_fingerprint ua ip)
           location := none
           details := none
           success := true
           error_message := none }] := by
  have hss : db.user_sessions.find? (fun s => s.refresh_token_id == some rec.id) = none := by
    rw [List.find?_eq_none]
    intro s hs
    simpa using hnosess s hs
  simp only [refresh_access_token, hfind, huser, hactive, hfp, Bool.not_true,
    Bool.false_eq_true, if_false, hss]
  exact ⟨rfl, rfl⟩

/-- C9: when a valid (active, unexpired, fingerprint-passing) refresh token
is referenced by no session row, the refresh still succeeds — the token is
rotated (old row deactivated, a new active row of the same family
inserted) — the session-pointer update is skipped (sessions unchanged),
and the `token_refresh` event is logged with a null session id. -/
theorem C9_refresh_without_session (db : DB) (tok ip ua : String)
    (fp : Option String) (now : Nat) (rec : RefreshTokenRec) (user : UserRec)
    (hfind : findActiveRefreshToken db (hash_token tok) now = some rec)
    (huser : db.users.find? (fun u => u.id == rec.user_id) = some user)
    (hactive : user.is_active = true)
    (hfp : fingerprint_mismatch fp (create_device_fingerprint ua ip) = false)
    (hnosess : ∀ s ∈ db.user_sessions, s.refresh_token_id ≠ some rec.id) :
    ∃ res : RefreshResult,
      (refresh_access_token db tok ip ua fp now).1 = some res ∧
      deactRT rec ∈ (refresh_access_token db tok ip ua fp now).2.refresh_tokens ∧
      (∃ nr ∈ (refresh_access_token db tok ip ua fp now).2.refresh_tokens,
        nr.token_hash = hash_token res.refresh_token ∧
        nr.family_id = rec.family_id ∧ nr.is_active = true) ∧
      (refresh_access_token db tok ip ua fp now).2.user_sessions = db.user_sessions ∧
      ∃ e : SecurityLogRec,
        (refresh_access_token db tok ip ua fp now).2.security_logs =
          db.security_logs ++ [e] ∧
        e.event_type = "token_refresh" ∧ e.session_id = none := by
  obtain ⟨h1, h2⟩ := refresh_success_proj db tok ip ua fp now rec user hfind huser hactive hfp
  obtain ⟨h3, h4⟩ :=
    refresh_no_session_proj db tok ip ua fp now rec user hfind huser hactive hfp hnosess
  refine ⟨_, h1, ?_, ?_, h3, ⟨_, h4, rfl, rfl⟩⟩
  · rw [h2]
    obtain ⟨l₁, l₂, _, _, _, hupd⟩ :=
      updateFirst_decomp (f := deactRT) (show db.refresh_tokens.find?
        (activeTokenPred (hash_token tok) now) = some rec from hfind)
    rw [hupd]
    exact List.mem_append_left _ (List.mem_append_right _ (List.mem_cons_self _ _))
  · rw [h2]
    exact ⟨_, List.mem_append_right _ (List.mem_cons_self _ _), rfl, rfl, rfl⟩

theorem C9_witness :
    findActiveRefreshToken sampleDBNoSession (hash_token (fresh_token 0)) 100 =
      some sampleRT ∧
    sampleDBNoSession.users.find? (fun u => u.id == sampleRT.user_id) = some sampleUser ∧
    sampleUser.is_active = true ∧
    fingerprint_mismatch none (create_device_fingerprint "ua" "ip") = false ∧
    (∀ s ∈ sampleDBNoSession.user_sessions, s.refresh_token_id ≠ some sampleRT.id) ∧
    (∃ res : RefreshResult,
      (refresh_access_token sampleDBNoSession (fresh_token 0) "ip" "ua" none 100).1 =
        some res ∧
      deactRT sampleRT ∈
        (refresh_access_token sampleDBNoSession (fresh_token 0) "ip" "ua" none
          100).2.refresh_tokens ∧
      (∃ nr ∈ (refresh_access_token sampleDBNoSession (fresh_token 0) "ip" "ua" none
          100).2.refresh_tokens,
        nr.token_hash = hash_token res.refresh_token ∧
        nr.family_id = sampleRT.family_id ∧ nr.is_active = true) ∧
      (refresh_access_token sampleDBNoSession (fresh_token 0) "ip" "ua" none
          100).2.user_sessions = sampleDBNoSession.user_sessions ∧
      ∃ e : SecurityLogRec,
        (refresh_access_token sampleDBNoSession (fresh_token 0) "ip" "ua" none
            100).2.security_logs = sampleDBNoSession.security_logs ++ [e] ∧
        e.event_type = "token_refresh" ∧ e.session_id = none) :=
  ⟨by decide, by decide, by decide, by decide, by decide,
    C9_refresh_without_session sampleDBNoSession (fresh_token 0) "ip" "ua" none 100
      sampleRT sampleUser (by decide) (by decide) (by decide) (by decide) (by decide)⟩

/-! ## C5 — nothing persists when `create_token_pair` fails after generation -/

theorem terminate_session_frame (db : DB) (sid reason : String) (now : Nat) :
    ((terminate_session db sid reason now).2).refresh_tokens.map (fun r => r.token_hash) =
      db.refresh_tokens.map (fun r => r.token_hash) ∧
    ((terminate_session db sid reason now).2).user_sessions.map (fun s => s.session_id) =
      db.user_sessions.map (fun s => s.session_id) ∧
    ((terminate_session db sid reason now).2).users = db.users ∧
    ((terminate_session db sid reason now).2).security_logs = db.security_logs := by
  rw [terminate_session]
  cases hf : db.user_sessions.find? (fun s => s.session_id == sid) with
  | none => exact ⟨rfl, rfl, rfl, rfl⟩
  | some s =>
    by_cases ha : s.is_active = true
    · simp only [ha, if_true]
      cases hrt : s.refresh_token_id with
      | none =>
        refine ⟨rfl, ?_, rfl, rfl⟩
        exact map_updateFirst _ _ (fun a _ => rfl)
      | some rtid =>
        refine ⟨?_, ?_, rfl, rfl⟩
        · exact map_updateFirst _ _ (fun a _ => rfl)
        · exact map_updateFirst _ _ (fun a _ => rfl)
    · have ha' : s.is_active = false := by simpa using ha
      simp only [ha', Bool.false_eq_true, if_false]
      refine ⟨?_, ?_, ?_, ?_⟩ <;> trivial

/-- C5: in `create_token_pair`, the only commit before the final one is the
internal commit of the session-limit eviction (`terminate_session`), so
the state that survives a failure after token generation is either the
original store or the eviction-phase store.  Neither contains a new
refresh-token row, a new session row, an updated user row, or any new
security event: the four persisted effects of the operation all sit in
the final transaction. -/
theorem C5_failure_after_generation_persists_nothing (db : DB) (user : UserRec)
    (now : Nat) (dbf : DB)
    (hdbf : dbf = db ∨ dbf = create_token_pair_evict db user now) :
    dbf.refresh_tokens.map (fun r => r.token_hash) =
      db.refresh_tokens.map (fun r => r.token_hash) ∧
    dbf.user_sessions.map (fun s => s.session_id) =
      db.user_sessions.map (fun s => s.session_id) ∧
    dbf.users = db.users ∧
    dbf.security_logs = db.security_logs := by
  rcases hdbf with rfl | rfl
  · exact ⟨rfl, rfl, rfl, rfl⟩
  · rw [create_token_pair_evict]
    by_cases hc : effectiveMaxSessions user ≤ (get_active_user_sessions db user.id now).length
    · rw [if_pos hc]
      cases hm : minByCreated (get_active_user_sessions db user.id now) with
      | none => exact ⟨rfl, rfl, rfl, rfl⟩
      | some oldest => exact terminate_session_frame db oldest.session_id _ now
    · rw [if_neg hc]
      exact ⟨rfl, rfl, rfl, rfl⟩

theorem C5_witness :
    (create_token_pair_evict sampleDB sampleUser 100).refresh_tokens.map
        (fun r => r.token_hash) =
      sampleDB.refresh_tokens.map (fun r => r.token_hash) ∧
    (create_token_pair_evict sampleDB sampleUser 100).user_sessions.map
        (fun s => s.session_id) =
      sampleDB.user_sessions.map (fun s => s.session_id) ∧
    (create_token_pair_evict sampleDB sampleUser 100).users = sampleDB.users ∧
    (create_token_pair_evict sampleDB sampleUser 100).security_logs =
      sampleDB.security_logs :=
  C5_failure_after_generation_persists_nothing sampleDB sampleUser 100
    (create_token_pair_evict sampleDB sampleUser 100) (Or.inr rfl)

/-! ## C4 — concurrent-session limit -/

theorem foldl_min_mem (xs : List UserSessionRec) (a : UserSessionRec) :
    xs.foldl (fun acc s => if s.created_at < acc.created_at then s else acc) a = a ∨
    xs.foldl (fun acc s => if s.created_at < acc.created_at then s else acc) a ∈ xs := by
  induction xs generalizing a with
  | nil => exact Or.inl rfl
  | cons x xs ih =>
    simp only [List.foldl_cons]
    rcases ih (if x.created_at < a.created_at then x else a) with h | h
    · rw [h]
      by_cases hc : x.created_at < a.created_at
      · rw [if_pos hc]
        exact Or.inr (List.mem_cons_self _ _)
      · rw [if_neg hc]
        exact Or.inl rfl
    · exact Or.inr (List.mem_cons_of_mem _ h)

theorem minByCreated_mem {l : List UserSessionRec} {x : UserSessionRec}
    (h : minByCreated l = some x) : x ∈ l := by
  cases l with
  | nil => simp [minByCreated] at h
  | cons y ys =>
    rw [minByCreated] at h
    obtain rfl : _ = x := Option.some.inj h
    rcases foldl_min_mem ys y with h' | h'
    · rw [h']
      exact List.mem_cons_self _ _
    · exact List.mem_cons_of_mem _ h'

theorem effectiveMaxSessions_pos (user : UserRec) : 1 ≤ effectiveMaxSessions user := by
  rw [effectiveMaxSessions]
  cases h : user.max_concurrent_sessions with
  | none => decide
  | some n =>
    cases n with
    | zero => decide
    | succ k => exact Nat.succ_le_succ (Nat.zero_le k)

/-- The rows appended by the final transaction of `create_token_pair`, on
top of the eviction-phase state. -/
theorem create_token_pair_state (db : DB) (user : UserRec) (ip ua dt : String)
    (loc : Option String) (rm : Bool) (now : Nat) :
    (create_token_pair db user ip ua dt loc rm now).2.user_sessions =
      (create_token_pair_evict db user now).user_sessions ++
        [{ session_id := fresh_token (db.rng + 2)
           user_id := user.id
           refresh_token_id := some (create_token_pair_evict db user now).next_refresh_token_id
           ip_address := ip
           user_agent := ua
           device_type := dt
           device_fingerprint := create_device_fingerprint ua ip
           location := loc
           is_active := true
           is_remember_me := rm
           created_at := now
           last_activity_at := now
           expires_at := now + (if rm then 30 else 7) * 86400
           terminated_at := none
           termination_reason := none }] ∧
    (create_token_pair db user ip ua dt loc rm now).2.refresh_tokens =
      (create_token_pair_evict db user now).refresh_tokens ++
        [{ id := (create_token_pair_evict db user now).next_refresh_token_id
           token_hash := hash_token (fresh_token (db.rng + 1))
           user_id := user.id
           device_fingerprint := create_device_fingerprint ua ip
           family_id := fresh_token (db.rng + 3)
           ip_address := ip
           user_agent := ua
           device_type := dt
           location := loc
           is_active := true
           created_at := now
           last_used_at := now
           expires_at := now + (if rm then 30 else 7) * 86400 }] := by
  exact ⟨rfl, rfl⟩

theorem create_token_pair_evict_of_lt (db : DB) (user : UserRec) (now : Nat)
    (hc : ¬ effectiveMaxSessions user ≤ (get_active_user_sessions db user.id now).length) :
    create_token_pair_evict db user now = db := by
  simp only [create_token_pair_evict]
  rw [if_neg hc]

theorem create_token_pair_evict_of_ge (db : DB) (user : UserRec) (now : Nat)
    (oldest : UserSessionRec)
    (hc : effectiveMaxSessions user ≤ (get_active_user_sessions db user.id now).length)
    (hm : minByCreated (get_active_user_sessions db user.id now) = some oldest) :
    create_token_pair_evict db user now =
      (terminate_session db oldest.session_id "session_limit_exceeded" now).2 := by
  simp only [create_token_pair_evict]
  rw [if_pos hc, hm]

theorem terminate_session_active_eq (db : DB) (s : UserSessionRec) (reason : String)
    (now : Nat)
    (hfindS : db.user_sessions.find? (fun t => t.session_id == s.session_id) = some s)
    (hact : s.is_active = true) :
    (terminate_session db s.session_id reason now).2.user_sessions =
      updateFirst (fun t => t.session_id == s.session_id) (fun t => termSS t now reason)
        db.user_sessions ∧
    (terminate_session db s.session_id reason now).2.refresh_tokens =
      (match s.refresh_token_id with
       | some rtid => updateFirst (fun r => r.id == rtid) deactRT db.refresh_tokens
       | none => db.refresh_tokens) := by
  rw [terminate_session, hfindS]
  simp only [hact, if_true]
  cases s.refresh_token_id <;> exact ⟨rfl, rfl⟩

theorem filter_length_term_decomp (p : UserSessionRec → Bool)
    (l₁ l₂ : List UserSessionRec) (s : UserSessionRec) (now : Nat) (reason : String)
    (hs : p s = true) (hterm : p (termSS s now reason) = false) :
    (List.filter p (l₁ ++ termSS s now reason :: l₂)).length + 1 =
      (List.filter p (l₁ ++ s :: l₂)).length := by
  simp only [List.filter_append, List.filter_cons, hs, hterm, List.length_append,
    Bool.false_eq_true, if_false, if_true, List.length_cons]
  omega

/-- C4: with at most `maxConcurrentSessions` active sessions beforehand,
`create_token_pair` never leaves the account above its limit; at the
limit, it first terminates the oldest-by-creation active session with
reason `session_limit_exceeded`, deactivating its session row and its
linked refresh-token row, before inserting the new session. -/
theorem C4_concurrent_session_limit (db : DB) (user : UserRec) (ip ua dt : String)
    (loc : Option String) (rm : Bool) (now : Nat)
    (hsids : sessionIdsNodup db)
    (hcount : (get_active_user_sessions db user.id now).length ≤ effectiveMaxSessions user) :
    (get_active_user_sessions (create_token_pair db user ip ua dt loc rm now).2 user.id
        now).length ≤ effectiveMaxSessions user ∧
    (effectiveMaxSessions user ≤ (get_active_user_sessions db user.id now).length →
      ∃ oldest : UserSessionRec,
        minByCreated (get_active_user_sessions db user.id now) = some oldest ∧
        termSS oldest now "session_limit_exceeded" ∈
          (create_token_pair db user ip ua dt loc rm now).2.user_sessions ∧
        ∀ rtid : Nat, oldest.refresh_token_id = some rtid →
          (∃ r ∈ db.refresh_tokens, r.id = rtid) →
          ∃ r' ∈ (create_token_pair db user ip ua dt loc rm now).2.refresh_tokens,
            r'.id = rtid ∧ r'.is_active = false) := by
  obtain ⟨hsessEq, htokEq⟩ := create_token_pair_state db user ip ua dt loc rm now
  by_cases hc : effectiveMaxSessions user ≤ (get_active_user_sessions db user.id now).length
  · have hAne : get_active_user_sessions db user.id now ≠ [] := by
      intro h0
      rw [h0] at hc
      have := effectiveMaxSessions_pos user
      simp at hc
      omega
    obtain ⟨oldest, hm⟩ :
        ∃ o, minByCreated (get_active_user_sessions db user.id now) = some o := by
      cases hA : get_active_user_sessions db user.id now with
      | nil => exact absurd hA hAne
      | cons x xs => exact ⟨_, rfl⟩
    have hmemF : oldest ∈ get_active_user_sessions db user.id now := minByCreated_mem hm
    rw [get_active_user_sessions] at hmemF
    obtain ⟨hmemS, hpredold⟩ := List.mem_filter.1 hmemF
    have hact : oldest.is_active = true := by
      simp only [Bool.and_eq_true] at hpredold
      exact hpredold.1.2
    have hfindS : db.user_sessions.find?
        (fun t => t.session_id == oldest.session_id) = some oldest :=
      find?_key_unique (hsids.imp fun hne hxv hyv => hne (hxv.trans hyv.symm)) hmemS rfl
    obtain ⟨hterm_s, hterm_t⟩ :=
      terminate_session_active_eq db oldest "session_limit_exceeded" now hfindS hact
    have hev := create_token_pair_evict_of_ge db user now oldest hc hm
    obtain ⟨l₁, l₂, hl, _, _, hupd⟩ :=
      updateFirst_decomp (f := fun t => termSS t now "session_limit_exceeded") hfindS
    have hdec : (List.filter
        (fun s => s.user_id == user.id && s.is_active && decide (now < s.expires_at))
        ((create_token_pair_evict db user now).user_sessions)).length + 1 =
        (get_active_user_sessions db user.id now).length := by
      rw [hev, hterm_s, hupd, get_active_user_sessions, hl]
      exact filter_length_term_decomp _ l₁ l₂ oldest now _ hpredold (by simp [termSS])
    have hfin : (get_active_user_sessions
        (create_token_pair db user ip ua dt loc rm now).2 user.id now).length =
        (List.filter
          (fun s => s.user_id == user.id && s.is_active && decide (now < s.expires_at))
          ((create_token_pair_evict db user now).user_sessions)).length + 1 := by
      rw [get_active_user_sessions, hsessEq]
      cases rm <;> simp [List.filter_append, List.filter_cons]
    refine ⟨by omega, fun _ => ⟨oldest, hm, ?_, ?_⟩⟩
    · rw [hsessEq, hev, hterm_s, hupd]
      exact List.mem_append_left _ (List.mem_append_right _ (List.mem_cons_self _ _))
    · rintro rtid hrt ⟨r, hrmem, hrid⟩
      rw [htokEq, hev, hterm_t, hrt]
      cases hfa : db.refresh_tokens.find? (fun x => x.id == rtid) with
      | none =>
        rw [List.find?_eq_none] at hfa
        exact absurd (show (r.id == rtid) = true by simp [hrid]) (by simpa using hfa r hrmem)
      | some a =>
        obtain ⟨m₁, m₂, _, _, hpa, hupd2⟩ := updateFirst_decomp (f := deactRT) hfa
        simp only [hupd2]
        have haid : a.id = rtid := by simpa using hpa
        exact ⟨deactRT a,
          List.mem_append_left _ (List.mem_append_right _ (List.mem_cons_self _ _)),
          haid, rfl⟩
  · have hev := create_token_pair_evict_of_lt db user now hc
    refine ⟨?_, fun h => absurd h hc⟩
    have hlt : (get_active_user_sessions db user.id now).length <
        effectiveMaxSessions user := Nat.lt_of_not_le hc
    rw [get_active_user_sessions] at hlt
    rw [get_active_user_sessions, hsessEq, hev]
    cases rm <;> simp [List.filter_append, List.filter_cons] <;> omega

theorem C4_witness :
    sessionIdsNodup sampleDB ∧
    (get_active_user_sessions sampleDB sampleUser.id 100).length ≤
      effectiveMaxSessions sampleUser ∧
    ((get_active_user_sessions
        (create_token_pair sampleDB sampleUser "ip2" "ua2" "web" none false 100).2
        sampleUser.id 100).length ≤ effectiveMaxSessions sampleUser ∧
      (effectiveMaxSessions sampleUser ≤
          (get_active_user_sessions sampleDB sampleUser.id 100).length →
        ∃ oldest : UserSessionRec,
          minByCreated (get_active_user_sessions sampleDB sampleUser.id 100) =
            some oldest ∧
          termSS oldest 100 "session_limit_exceeded" ∈
            (create_token_pair sampleDB sampleUser "ip2" "ua2" "web" none false
              100).2.user_sessions ∧
          ∀ rtid : Nat, oldest.refresh_token_id = some rtid →
            (∃ r ∈ sampleDB.refresh_tokens, r.id = rtid) →
            ∃ r' ∈ (create_token_pair sampleDB sampleUser "ip2" "ua2" "web" none false
                100).2.refresh_tokens,
              r'.id = rtid ∧ r'.is_active = false)) :=
  ⟨by unfold sessionIdsNodup; decide, by decide,
    C4_concurrent_session_limit sampleDB sampleUser "ip2" "ua2" "web" none false 100
      (by unfold sessionIdsNodup; decide) (by decide)⟩

/-! ## C1 — fingerprint mismatch revokes the whole family -/

theorem updateFirst_eq_self {α : Type} {p : α → Bool} {f : α → α} {l : List α}
    (h : l.find? p = none) : updateFirst p f l = l := by
  induction l with
  | nil => rfl
  | cons x xs ih =>
    by_cases hp : p x = true
    · rw [List.find?_cons_of_pos _ hp] at h
      exact absurd h (by simp)
    · have hp' : p x = false := by simpa using hp
      rw [List.find?_cons_of_neg _ (by simp [hp'])] at h
      simp [updateFirst, hp', ih h]

theorem mem_updateFirst_of_pred_false {α : Type} {p : α → Bool} {f : α → α}
    {l : List α} {x : α} (hx : x ∈ l) (hpx : p x = false) :
    x ∈ updateFirst p f l := by
  induction l with
  | nil => simp at hx
  | cons y ys ih =>
    by_cases hp : p y = true
    · simp only [updateFirst, hp, if_true]
      rcases List.mem_cons.1 hx with rfl | hx'
      · rw [hp] at hpx
        exact absurd hpx (by simp)
      · exact List.mem_cons_of_mem _ hx'
    · have hp' : p y = false := by simpa using hp
      simp only [updateFirst, hp', Bool.false_eq_true, if_false]
      rcases List.mem_cons.1 hx with rfl | hx'
      · exact List.mem_cons_self _ _
      · exact List.mem_cons_of_mem _ (ih hx')

theorem forall₂_comp {α : Type} {R : α → α → Prop}
    (htrans : ∀ a b c, R a b → R b c → R a c) :
    ∀ {l₁ l₂ l₃ : List α}, List.Forall₂ R l₁ l₂ → List.Forall₂ R l₂ l₃ →
      List.Forall₂ R l₁ l₃ := by
  intro l₁ l₂ l₃ h12
  induction h12 generalizing l₃ with
  | nil =>
    intro h23
    cases h23
    exact List.Forall₂.nil
  | @cons a b as bs hab _ ih =>
    intro h23
    cases h23 with
    | cons hbc h23' => exact List.Forall₂.cons (htrans _ _ _ hab hbc) (ih h23')

theorem forall₂_map_eq {α β : Type} {R : α → α → Prop} {l l' : List α}
    (h : List.Forall₂ R l l') (g : α → β) (hg : ∀ a b, R a b → g b = g a) :
    l'.map g = l.map g := by
  induction h with
  | nil => rfl
  | cons hab _ ih => simp [ih, hg _ _ hab]

theorem deactRT_idem (r : RefreshTokenRec) : deactRT (deactRT r) = deactRT r := rfl

theorem termSS_idem (s : UserSessionRec) (now : Nat) (reason : String) :
    termSS (termSS s now reason) now reason = termSS s now reason := rfl

theorem deactEvol_refl (reason : String) (now : Nat) (db : DB) :
    deactEvol reason now db db :=
  ⟨List.forall₂_same.mpr (fun _ _ => Or.inl rfl),
   List.forall₂_same.mpr (fun _ _ => Or.inl rfl), rfl, rfl, rfl, rfl, rfl⟩

theorem deactEvol_trans {reason : String} {now : Nat} {db1 db2 db3 : DB}
    (h12 : deactEvol reason now db1 db2) (h23 : deactEvol reason now db2 db3) :
    deactEvol reason now db1 db3 := by
  obtain ⟨hr12, hs12, hu12, hl12, hb12, hn12, hg12⟩ := h12
  obtain ⟨hr23, hs23, hu23, hl23, hb23, hn23, hg23⟩ := h23
  refine ⟨?_, ?_, hu23.trans hu12, hl23.trans hl12, hb23.trans hb12,
    hn23.trans hn12, hg23.trans hg12⟩
  · refine forall₂_comp ?_ hr12 hr23
    rintro a b c (rfl | rfl) (rfl | rfl)
    · exact Or.inl rfl
    · exact Or.inr rfl
    · exact Or.inr rfl
    · exact Or.inr (deactRT_idem a)
  · refine forall₂_comp ?_ hs12 hs23
    rintro a b c (rfl | rfl) (rfl | rfl)
    · exact Or.inl rfl
    · exact Or.inr rfl
    · exact Or.inr rfl
    · exact Or.inr (termSS_idem a now reason)

theorem terminate_session_deactEvol (db : DB) (sid reason : String) (now : Nat) :
    deactEvol reason now db (terminate_session db sid reason now).2 := by
  rw [terminate_session]
  cases hf : db.user_sessions.find? (fun s => s.session_id == sid) with
  | none => exact deactEvol_refl reason now db
  | some s =>
    by_cases ha : s.is_active = true
    · simp only [ha, if_true]
      cases hrt : s.refresh_token_id with
      | none =>
        exact ⟨List.forall₂_same.mpr (fun _ _ => Or.inl rfl),
          forall₂_updateFirst _, rfl, rfl, rfl, rfl, rfl⟩
      | some rtid =>
        exact ⟨forall₂_updateFirst _, forall₂_updateFirst _, rfl, rfl, rfl, rfl, rfl⟩
    · have ha' : s.is_active = false := by simpa using ha
      simp only [ha', Bool.false_eq_true, if_false]
      exact deactEvol_refl reason now db

theorem revokeFamilyStep_deactEvol (reason : String) (now : Nat) (db : DB)
    (t : RefreshTokenRec) :
    deactEvol reason now db (revokeFamilyStep reason now db t) := by
  have h1 : deactEvol reason now db
      { db with refresh_tokens :=
          updateFirst (fun r => r.id == t.id) deactRT db.refresh_tokens } :=
    ⟨forall₂_updateFirst _, List.forall₂_same.mpr (fun _ _ => Or.inl rfl),
      rfl, rfl, rfl, rfl, rfl⟩
  simp only [revokeFamilyStep]
  cases hf : db.user_sessions.find? (fun s => s.refresh_token_id == some t.id) with
  | none => exact h1
  | some s => exact deactEvol_trans h1 (terminate_session_deactEvol _ s.session_id reason now)

theorem foldl_revokeFamilyStep_deactEvol (reason : String) (now : Nat)
    (ts : List RefreshTokenRec) (db : DB) :
    deactEvol reason now db (ts.foldl (revokeFamilyStep reason now) db) := by
  induction ts generalizing db with
  | nil => exact deactEvol_refl reason now db
  | cons t ts' ih =>
    rw [List.foldl_cons]
    exact deactEvol_trans (revokeFamilyStep_deactEvol reason now db t)
      (ih (revokeFamilyStep reason now db t))

theorem idInactive_mono {reason : String} {now : Nat} {db db' : DB} {i : Nat}
    (hevol : deactEvol reason now db db')
    (h : ∀ x ∈ db.refresh_tokens, x.id = i → x.is_active = false) :
    ∀ x' ∈ db'.refresh_tokens, x'.id = i → x'.is_active = false := by
  intro x' hx' hid
  obtain ⟨x, hx, hrel⟩ := forall₂_mem_right hevol.1 hx'
  rcases hrel with rfl | rfl
  · exact h x' hx hid
  · rfl

theorem termMem_mono {reason : String} {now : Nat} {db db' : DB} {s : UserSessionRec}
    (hevol : deactEvol reason now db db')
    (h : termSS s now reason ∈ db.user_sessions) :
    termSS s now reason ∈ db'.user_sessions := by
  obtain ⟨b, hb, hrel⟩ := forall₂_mem_left hevol.2.1 h
  rcases hrel with rfl | rfl
  · exact hb
  · rw [termSS_idem] at hb
    exact hb

theorem deactEvol_rt_id_map {reason : String} {now : Nat} {db db' : DB}
    (hevol : deactEvol reason now db db') :
    db'.refresh_tokens.map (fun r => r.id) = db.refresh_tokens.map (fun r => r.id) :=
  forall₂_map_eq hevol.1 _ (by rintro a b (rfl | rfl) <;> rfl)

theorem deactEvol_sid_map {reason : String} {now : Nat} {db db' : DB}
    (hevol : deactEvol reason now db db') :
    db'.user_sessions.map (fun s => s.session_id) =
      db.user_sessions.map (fun s => s.session_id) :=
  forall₂_map_eq hevol.2.1 _ (by rintro a b (rfl | rfl) <;> rfl)

theorem deactEvol_rtid_map {reason : String} {now : Nat} {db db' : DB}
    (hevol : deactEvol reason now db db') :
    db'.user_sessions.map (fun s => s.refresh_token_id) =
      db.user_sessions.map (fun s => s.refresh_token_id) :=
  forall₂_map_eq hevol.2.1 _ (by rintro a b (rfl | rfl) <;> rfl)

theorem revokeFamilyStep_deactivates (reason : String) (now : Nat) (db : DB)
    (t : RefreshTokenRec)
    (hids : (db.refresh_tokens.map (fun r => r.id)).Nodup) :
    ∀ x ∈ (revokeFamilyStep reason now db t).refresh_tokens, x.id = t.id →
      x.is_active = false := by
  have hmid : ∀ x ∈ updateFirst (fun r => r.id == t.id) deactRT db.refresh_tokens,
      x.id = t.id → x.is_active = false := by
    cases hfa : db.refresh_tokens.find? (fun r => r.id == t.id) with
    | none =>
      rw [updateFirst_eq_self hfa]
      rw [List.find?_eq_none] at hfa
      intro x hx hid
      exact absurd (show (x.id == t.id) = true by simp [hid]) (hfa x hx)
    | some a =>
      obtain ⟨l₁, l₂, hl, hl₁, hpa, hupd⟩ := updateFirst_decomp (f := deactRT) hfa
      rw [hupd]
      intro x hx hid
      rcases List.mem_append.1 hx with hx1 | hx2
      · exact absurd (show (x.id == t.id) = true by simp [hid])
          (by simpa using hl₁ x hx1)
      · rcases List.mem_cons.1 hx2 with rfl | hx3
        · rfl
        · exfalso
          have haid : a.id = t.id := by simpa using hpa
          rw [hl] at hids
          simp only [List.map_append, List.map_cons] at hids
          apply (List.nodup_cons.1 (List.nodup_append.1 hids).2.1).1
          have hmem := List.mem_map_of_mem (fun r => r.id) hx3
          simp only at hmem
          rwa [hid, ← haid] at hmem
  simp only [revokeFamilyStep]
  cases hf : db.user_sessions.find? (fun s => s.refresh_token_id == some t.id) with
  | none => exact hmid
  | some s =>
    exact idInactive_mono (terminate_session_deactEvol _ s.session_id reason now) hmid

theorem terminate_session_mem (db : DB) (s : UserSessionRec) (reason : String) (now : Nat)
    (hfindS : db.user_sessions.find? (fun x => x.session_id == s.session_id) = some s)
    (hact : s.is_active = true) :
    termSS s now reason ∈ (terminate_session db s.session_id reason now).2.user_sessions := by
  obtain ⟨hts, _⟩ := terminate_session_active_eq db s reason now hfindS hact
  rw [hts]
  obtain ⟨l₁, l₂, _, _, _, hupd⟩ :=
    updateFirst_decomp (f := fun t => termSS t now reason) hfindS
  rw [hupd]
  exact List.mem_append_right _ (List.mem_cons_self _ _)

theorem revokeFamilyStep_terminates (reason : String) (now : Nat) (db : DB)
    (t : RefreshTokenRec) (s : UserSessionRec)
    (hsids : (db.user_sessions.map (fun x => x.session_id)).Nodup)
    (hrtids : (db.user_sessions.map (fun x => x.refresh_token_id)).Pairwise
      (fun a b => ∀ i : Nat, a = some i → b ≠ some i))
    (hs : s ∈ db.user_sessions) (hsrt : s.refresh_token_id = some t.id)
    (hsact : s.is_active = true) :
    termSS s now reason ∈ (revokeFamilyStep reason now db t).user_sessions := by
  have hfindrt : db.user_sessions.find?
      (fun x => x.refresh_token_id == some t.id) = some s :=
    find?_key_unique (hrtids.imp fun hab hav => hab t.id hav) hs hsrt
  have hfindS : db.user_sessions.find?
      (fun x => x.session_id == s.session_id) = some s :=
    find?_key_unique (hsids.imp fun hne hxv hyv => hne (hxv.trans hyv.symm)) hs rfl
  simp only [revokeFamilyStep]
  rw [hfindrt]
  exact terminate_session_mem _ s reason now hfindS hsact

theorem terminate_session_preserves_session (db : DB) (sid reason : String) (now : Nat)
    {s : UserSessionRec} (hs : s ∈ db.user_sessions) (hne : s.session_id ≠ sid) :
    s ∈ (terminate_session db sid reason now).2.user_sessions := by
  rw [terminate_session]
  cases hf : db.user_sessions.find? (fun x => x.session_id == sid) with
  | none => exact hs
  | some s0 =>
    by_cases ha : s0.is_active = true
    · simp only [ha, if_true]
      have hmem2 : s ∈ updateFirst (fun x => x.session_id == sid)
          (fun x => termSS x now reason) db.user_sessions :=
        mem_updateFirst_of_pred_false hs (by simp [hne])
      cases s0.refresh_token_id <;> exact hmem2
    · have ha' : s0.is_active = false := by simpa using ha
      simp only [ha', Bool.false_eq_true, if_false]
      exact hs

theorem revokeFamilyStep_preserves_session (reason : String) (now : Nat) (db : DB)
    (t : RefreshTokenRec) (s : UserSessionRec)
    (hsids : (db.user_sessions.map (fun x => x.session_id)).Nodup)
    (hs : s ∈ db.user_sessions) (hsrt : s.refresh_token_id ≠ some t.id) :
    s ∈ (revokeFamilyStep reason now db t).user_sessions := by
  simp only [revokeFamilyStep]
  cases hf : db.user_sessions.find? (fun x => x.refresh_token_id == some t.id) with
  | none => exact hs
  | some s0 =>
    have hs0mem : s0 ∈ db.user_sessions := List.mem_of_find?_eq_some hf
    have hs0rt : s0.refresh_token_id = some t.id := by simpa using List.find?_some hf
    have hneq : s ≠ s0 := fun h => hsrt (h ▸ hs0rt)
    have hsidne : s.session_id ≠ s0.session_id := by
      intro h
      exact hneq (List.inj_on_of_nodup_map hsids hs hs0mem h)
    exact terminate_session_preserves_session _ s0.session_id reason now hs hsidne

theorem revoke_fold_spec (reason : String) (now : Nat) (ts : List RefreshTokenRec)
    (db : DB)
    (hids : (db.refresh_tokens.map (fun r => r.id)).Nodup)
    (hsids : (db.user_sessions.map (fun x => x.session_id)).Nodup)
    (hrtids : (db.user_sessions.map (fun x => x.refresh_token_id)).Pairwise
      (fun a b => ∀ i : Nat, a = some i → b ≠ some i)) :
    deactEvol reason now db (ts.foldl (revokeFamilyStep reason now) db) ∧
    (∀ t ∈ ts, ∀ x ∈ (ts.foldl (revokeFamilyStep reason now) db).refresh_tokens,
      x.id = t.id → x.is_active = false) ∧
    (∀ t ∈ ts, ∀ s ∈ db.user_sessions, s.is_active = true →
      s.refresh_token_id = some t.id →
      termSS s now reason ∈ (ts.foldl (revokeFamilyStep reason now) db).user_sessions) := by
  induction ts generalizing db with
  | nil => exact ⟨deactEvol_refl reason now db, by simp, by simp⟩
  | cons t ts' ih =>
    have hstep := revokeFamilyStep_deactEvol reason now db t
    have hids1 : ((revokeFamilyStep reason now db t).refresh_tokens.map
        (fun r => r.id)).Nodup := by
      rw [deactEvol_rt_id_map hstep]; exact hids
    have hsids1 : ((revokeFamilyStep reason now db t).user_sessions.map
        (fun x => x.session_id)).Nodup := by
      rw [deactEvol_sid_map hstep]; exact hsids
    have hrtids1 : ((revokeFamilyStep reason now db t).user_sessions.map
        (fun x => x.refresh_token_id)).Pairwise
        (fun a b => ∀ i : Nat, a = some i → b ≠ some i) := by
      rw [deactEvol_rtid_map hstep]; exact hrtids
    obtain ⟨hevol', hinact', hsess'⟩ :=
      ih (revokeFamilyStep reason now db t) hids1 hsids1 hrtids1
    rw [List.foldl_cons]
    refine ⟨deactEvol_trans hstep hevol', ?_, ?_⟩
    · intro t0 ht0 x hx hid
      rcases List.mem_cons.1 ht0 with rfl | ht0'
      · exact idInactive_mono hevol'
          (revokeFamilyStep_deactivates reason now db t0 hids) x hx hid
      · exact hinact' t0 ht0' x hx hid
    · intro t0 ht0 s hs hact hsrt
      rcases List.mem_cons.1 ht0 with rfl | ht0'
      · exact termMem_mono hevol'
          (revokeFamilyStep_terminates reason now db t0 s hsids hrtids hs hsrt hact)
      · by_cases hcase : s.refresh_token_id = some t.id
        · exact termMem_mono hevol'
            (revokeFamilyStep_terminates reason now db t s hsids hrtids hs hcase hact)
        · have hsurv : s ∈ (revokeFamilyStep reason now db t).user_sessions :=
            revokeFamilyStep_preserves_session reason now db t s hsids hs hcase
          exact hsess' t0 ht0' s hsurv hact hsrt

theorem revoke_token_family_spec (db : DB) (fid reason : String) (now : Nat)
    (hids : rtIdsNodup db) (hsids : sessionIdsNodup db)
    (hrtids : sessionRTIDUnique db) :
    deactEvol reason now db (revoke_token_family db fid reason now).2 ∧
    (∀ x ∈ (revoke_token_family db fid reason now).2.refresh_tokens,
      x.family_id = fid → x.is_active = false) ∧
    (∀ s ∈ db.user_sessions, s.is_active = true →
      (∃ r ∈ db.refresh_tokens, s.refresh_token_id = some r.id ∧
        r.family_id = fid ∧ r.is_active = true) →
      termSS s now reason ∈ (revoke_token_family db fid reason now).2.user_sessions) := by
  obtain ⟨hevol, hinact, hsess⟩ := revoke_fold_spec reason now
    (db.refresh_tokens.filter (fun r => r.family_id == fid && r.is_active)) db
    hids hsids hrtids
  refine ⟨hevol, ?_, ?_⟩
  · intro x hx hfam
    obtain ⟨r, hr, hrel⟩ := forall₂_mem_right hevol.1 hx
    have hfam_r : r.family_id = fid := by
      rcases hrel with rfl | rfl
      · exact hfam
      · exact hfam
    by_cases hract : r.is_active = true
    · have hrts : r ∈ db.refresh_tokens.filter
          (fun r => r.family_id == fid && r.is_active) :=
        List.mem_filter.2 ⟨hr, by simp [hfam_r, hract]⟩
      have hxid : x.id = r.id := by rcases hrel with rfl | rfl <;> rfl
      exact hinact r hrts x hx hxid
    · have hract' : r.is_active = false := by simpa using hract
      rcases hrel with rfl | rfl
      · exact hract'
      · rfl
  · rintro s hs hact ⟨r, hr, hsrt, hfam, hract⟩
    have hrts : r ∈ db.refresh_tokens.filter
        (fun r => r.family_id == fid && r.is_active) :=
      List.mem_filter.2 ⟨hr, by simp [hfam, hract]⟩
    exact hsess r hrts s hs hact hsrt

/-- C1 (counterexample): on a fingerprint mismatch the family is revoked,
but `revoke_token_family` is called with its default reason
`"security_breach"`, not `"suspicious"`: at a concrete theft simulation
the call fails and the family is deactivated, yet no session carries
termination reason `suspicious` — the terminated session carries
`security_breach`. -/
theorem C1_counterexample_reason_not_suspicious :
    (refresh_access_token sampleDB (fresh_token 0) "ip" "ua" (some "OTHER") 100).1 =
      none ∧
    (∀ s ∈ (refresh_access_token sampleDB (fresh_token 0) "ip" "ua" (some "OTHER")
        100).2.user_sessions, s.termination_reason ≠ some "suspicious") ∧
    ∃ s ∈ (refresh_access_token sampleDB (fresh_token 0) "ip" "ua" (some "OTHER")
        100).2.user_sessions,
      s.is_active = false ∧ s.termination_reason = some "security_breach" := by
  decide

/-- C1 (amended): for every refresh call in which the caller supplies a
non-empty expected device fingerprint that differs from the fingerprint
recomputed from the current request context, while the presented refresh
token is active, unexpired, and owned by an active account, the call
fails, a `device_fingerprint_mismatch` security event with severity
`high` is logged, every refresh token in the presented token's family is
left inactive, and every active session associated with an active family
member is terminated with reason `security_breach` (the code's default
revocation reason — not `suspicious` as the claim stated). -/
theorem C1_fingerprint_mismatch_revokes_family (db : DB) (tok ip ua fpv : String)
    (now : Nat) (rec : RefreshTokenRec) (user : UserRec)
    (hfind : findActiveRefreshToken db (hash_token tok) now = some rec)
    (huser : db.users.find? (fun u => u.id == rec.user_id) = some user)
    (hactive : user.is_active = true)
    (hids : rtIdsNodup db) (hsids : sessionIdsNodup db)
    (hrtids : sessionRTIDUnique db)
    (hfp_ne : fpv ≠ "")
    (hfp_mismatch : fpv ≠ create_device_fingerprint ua ip) :
    (refresh_access_token db tok ip ua (some fpv) now).1 = none ∧
    (∃ e ∈ (refresh_access_token db tok ip ua (some fpv) now).2.security_logs,
      e.event_type = "device_fingerprint_mismatch" ∧
      e.event_category = "suspicious" ∧ e.severity = "high" ∧
      e.user_id = some user.id) ∧
    (∀ x ∈ (refresh_access_token db tok ip ua (some fpv) now).2.refresh_tokens,
      x.family_id = rec.family_id → x.is_active = false) ∧
    (∀ s ∈ db.user_sessions, s.is_active = true →
      (∃ r ∈ db.refresh_tokens, s.refresh_token_id = some r.id ∧
        r.family_id = rec.family_id ∧ r.is_active = true) →
      termSS s now "security_breach" ∈
        (refresh_access_token db tok ip ua (some fpv) now).2.user_sessions) := by
  have hmm : fingerprint_mismatch (some fpv) (create_device_fingerprint ua ip) = true := by
    simp [fingerprint_mismatch, hfp_ne, hfp_mismatch]
  have hout : refresh_access_token db tok ip ua (some fpv) now =
      (none, (revoke_token_family
        (log_security_event db (some user.id) none "device_fingerprint_mismatch"
          "suspicious" "high" (some ip) (some ua) none none
          (some [("expected_fingerprint", fpv),
                 ("actual_fingerprint", create_device_fingerprint ua ip)]) true none)
        rec.family_id "security_breach" now).2) := by
    simp only [refresh_access_token, hfind, huser, hactive, hmm, Bool.not_true,
      Bool.false_eq_true, if_false, if_true, Option.getD_some]
  obtain ⟨hevol, hinact, hsess⟩ := revoke_token_family_spec
    (log_security_event db (some user.id) none "device_fingerprint_mismatch"
      "suspicious" "high" (some ip) (some ua) none none
      (some [("expected_fingerprint", fpv),
             ("actual_fingerprint", create_device_fingerprint ua ip)]) true none)
    rec.family_id "security_breach" now hids hsids hrtids
  rw [hout]
  refine ⟨rfl, ?_, hinact, hsess⟩
  have hlogs := hevol.2.2.2.1
  refine ⟨⟨some user.id, none, "device_fingerprint_mismatch", "suspicious", "high",
    some ip, some ua, none, none,
    some [("expected_fingerprint", fpv),
          ("actual_fingerprint", create_device_fingerprint ua ip)], true, none⟩,
    ?_, rfl, rfl, rfl, rfl⟩
  rw [hlogs]
  exact List.mem_append_right _ (List.mem_cons_self _ _)

theorem C1_witness :
    findActiveRefreshToken sampleDB (hash_token (fresh_token 0)) 100 = some sampleRT ∧
    sampleDB.users.find? (fun u => u.id == sampleRT.user_id) = some sampleUser ∧
    sampleUser.is_active = true ∧
    ("OTHER" : String) ≠ "" ∧
    ("OTHER" : String) ≠ create_device_fingerprint "ua" "ip" ∧
    ((refresh_access_token sampleDB (fresh_token 0) "ip" "ua" (some "OTHER") 100).1 =
        none ∧
      (∃ e ∈ (refresh_access_token sampleDB (fresh_token 0) "ip" "ua" (some "OTHER")
          100).2.security_logs,
        e.event_type = "device_fingerprint_mismatch" ∧
        e.event_category = "suspicious" ∧ e.severity = "high" ∧
        e.user_id = some sampleUser.id) ∧
      (∀ x ∈ (refresh_access_token sampleDB (fresh_token 0) "ip" "ua" (some "OTHER")
          100).2.refresh_tokens,
        x.family_id = sampleRT.family_id → x.is_active = false) ∧
      (∀ s ∈ sampleDB.user_sessions, s.is_active = true →
        (∃ r ∈ sampleDB.refresh_tokens, s.refresh_token_id = some r.id ∧
          r.family_id = sampleRT.family_id ∧ r.is_active = true) →
        termSS s 100 "security_breach" ∈
          (refresh_access_token sampleDB (fresh_token 0) "ip" "ua" (some "OTHER")
            100).2.user_sessions)) :=
  ⟨by decide, by decide, by decide, by decide, by decide,
    C1_fingerprint_mismatch_revokes_family sampleDB (fresh_token 0) "ip" "ua" "OTHER"
      100 sampleRT sampleUser (by decide) (by decide) (by decide)
      (by unfold rtIdsNodup; decide) (by unfold sessionIdsNodup; decide)
      (by unfold sessionRTIDUnique; decide) (by decide) (by decide)⟩
